import Mathlib

/-!
Verification of the `ha_kia_hyundai` Home Assistant integration's vendor API
client layer (Kia / Hyundai / Genesis USA), shallowly embedded in Lean 4.

Each definition mirrors one Python function or method of the repository:
 - `custom_components/ha_kia_hyundai/kia_hyundai_api/errors.py`
 - `custom_components/ha_kia_hyundai/kia_hyundai_api/util_http.py`
 - `custom_components/ha_kia_hyundai/kia_hyundai_api/us_kia.py`
 - `custom_components/ha_kia_hyundai/kia_hyundai_api/us_hyundai.py`
 - `custom_components/ha_kia_hyundai/kia_hyundai_api/us_genesis.py`
 - `custom_components/ha_kia_hyundai/vehicle_coordinator.py`
 - `custom_components/ha_kia_hyundai/api_adapter.py`

Network and user-callback interactions are modelled by environment records of
functions indexed by a call counter (the i-th invocation of an endpoint may
behave differently), and the mutable client object is modelled as explicit
state threaded through each operation.  Python exceptions are modelled with
`Except`: the error value together with the state at the point of the raise.
-/

namespace KiaHyundaiSpec

/-- The typed error taxonomy of `kia_hyundai_api/errors.py`, together with the
Python exception kinds the client code can raise.  In the source,
`BaseError` (hence `RateError`, `AuthError`, `ActionAlreadyInProgressError`,
`PINLockedError`, `TokenExpiredError`) derives from `aiohttp.ClientError`;
`PINLockedError` and `TokenExpiredError` derive from `AuthError`.
`ValueError` and `KeyError` are ordinary Python exceptions, not
`ClientError`s; `other` stands for any further exception (for example one
raised by the externally supplied OTP callback). -/
inductive ApiErr where
  | auth (msg : String)
  | pinLocked (msg : String)
  | tokenExpired (msg : String)
  | rate (msg : String)
  | actionInProgress (msg : String)
  | client (msg : String)
  | valueError (msg : String)
  | keyError (msg : String)
  | other (msg : String)
deriving DecidableEq, Repr

/-- `isinstance(e, AuthError)`: true for `AuthError` and its subclasses
`PINLockedError` and `TokenExpiredError`. -/
def ApiErr.isAuthError : ApiErr → Bool
  | .auth _ => true
  | .pinLocked _ => true
  | .tokenExpired _ => true
  | _ => false

/-- `isinstance(e, aiohttp.ClientError)`: every error of `errors.py` is a
`ClientError`; `ValueError`, `KeyError` and other plain exceptions are not. -/
def ApiErr.isClientError : ApiErr → Bool
  | .valueError _ => false
  | .keyError _ => false
  | .other _ => false
  | _ => true

/-- Errors that the raw transport (aiohttp itself) can raise: plain network
`ClientError`s.  The custom classes of `errors.py` are only ever constructed
by this repository's code, never by aiohttp. -/
inductive TransportErr where
  | network (msg : String)
deriving DecidableEq, Repr

def TransportErr.toApiErr : TransportErr → ApiErr
  | .network m => .client m

/-! ## Seat-status normalization (`api_adapter.py`, `EUApiAdapter._parse_seat_status_raw`) -/

/-- The `{heatVentType: X, heatVentLevel: Y}` dictionary produced by
`_parse_seat_status_raw` (heatVentType: 0=off, 1=heat, 2=cool;
heatVentLevel: 1=off, 2=low, 3=med, 4=high). -/
structure SeatOut where
  heatVentType : Int
  heatVentLevel : Int
deriving DecidableEq, Repr

/-- `EUApiAdapter._parse_seat_status_raw` on an integer input (the
`raw_value is None` guard and the `int()` coercion happen before this
numeric dispatch in the source). -/
def parse_seat_status_raw (status : Int) : SeatOut :=
  if status = 0 ∨ status = 2 then
    { heatVentType := 0, heatVentLevel := 1 }
  else if status = 1 then
    { heatVentType := 1, heatVentLevel := 2 }
  else if 3 ≤ status ∧ status ≤ 5 then
    { heatVentType := 2, heatVentLevel := status - 1 }
  else if 6 ≤ status ∧ status ≤ 8 then
    { heatVentType := 1, heatVentLevel := status - 4 }
  else
    { heatVentType := 0, heatVentLevel := 1 }

/-! ## Hyundai/Genesis supported seat levels
(`us_genesis.py` `_parse_supported_levels`, `us_hyundai.py` `_seat_settings_hyundai`) -/

/-- The `SeatSettings` enum of `kia_hyundai_api/const.py`:
NONE=0, CoolLow=1, CoolMedium=2, CoolHigh=3, HeatLow=4, HeatMedium=5, HeatHigh=6. -/
inductive SeatSettings where
  | NONE | CoolLow | CoolMedium | CoolHigh | HeatLow | HeatMedium | HeatHigh
deriving DecidableEq, Repr

def SeatSettings.val : SeatSettings → Int
  | .NONE => 0
  | .CoolLow => 1
  | .CoolMedium => 2
  | .CoolHigh => 3
  | .HeatLow => 4
  | .HeatMedium => 5
  | .HeatHigh => 6

/-- `us_hyundai.py` `_seat_settings_hyundai`: a fixed table from the
`SeatSettings` enum to the wire value, taking no `supportedLevels` input. -/
def seat_settings_hyundai : Option SeatSettings → Int
  | none => 0
  | some l =>
    let v := l.val
    if v = 6 then 3
    else if v = 5 then 2
    else if v = 4 then 1
    else if v = 3 then 8
    else if v = 2 then 7
    else if v = 1 then 6
    else 0

/-- Python `s.split(sep)` for a one-character separator: splits at every
occurrence, keeping empty pieces (so `"".split(",") == [""]`). -/
def pySplit (sep : Char) : List Char → List (List Char)
  | [] => [[]]
  | c :: cs =>
    let r := pySplit sep cs
    if c = sep then [] :: r
    else
      match r with
      | [] => [[c]]
      | g :: gs => (c :: g) :: gs

/-- Python `str.strip()`: removes leading and trailing whitespace. -/
def pyStrip (cs : List Char) : List Char :=
  ((cs.dropWhile Char.isWhitespace).reverse.dropWhile Char.isWhitespace).reverse

/-- Python `int(str)` on an already stripped item: optional sign followed by
decimal digits; `none` models the `ValueError` Python raises otherwise. -/
def pyDigitsVal (cs : List Char) : Option Nat :=
  if cs ≠ [] ∧ cs.all Char.isDigit then
    some (cs.foldl (fun a c => a * 10 + (c.toNat - 48)) 0)
  else none

def pyInt? : List Char → Option Int
  | '-' :: rest => (pyDigitsVal rest).map (fun n => -(n : Int))
  | '+' :: rest => (pyDigitsVal rest).map (fun n => (n : Int))
  | cs => (pyDigitsVal cs).map (fun n => (n : Int))

/-- `[int(x.strip()) for x in supported_levels_str.split(",") if x.strip()]`:
split on commas, strip, drop empty items, parse each as an integer.
`none` models the `ValueError` raised by Python's `int()` on a non-numeric
item. -/
def parseLevelsItems (s : String) : Option (List Int) :=
  (((pySplit ',' s.toList).map pyStrip).filter (fun x => x ≠ [])).mapM pyInt?

/-- The core of `_parse_supported_levels` after string parsing: `sorted(...)`
then the dictionary construction.  The mapping `{0: off, 1..3: cool
low/med/high, 4..6: heat low/med/high}` is represented as an association
list in key order. -/
def parse_supported_levels_core (levels0 : List Int) : List (Int × Int) :=
  let levels := levels0.insertionSort (· ≤ ·)
  if levels.length < 7 then
    (0, levels.headD 0) ::
      (List.enumFrom 1 (levels.drop 1)).filterMap
        (fun p => if ((p.1 : Int)) ≤ 6 then some ((p.1 : Int), p.2) else none)
  else
    [ (0, levels.getD 0 0), (1, levels.getD 1 0), (2, levels.getD 2 0),
      (3, levels.getD 3 0), (4, levels.getD 4 0), (5, levels.getD 5 0),
      (6, levels.getD 6 0) ]

/-- `us_genesis.py` `_parse_supported_levels`: empty (falsy) string gives the
default identity mapping, otherwise parse, sort ascending and assign
off / cool low,med,high / heat low,med,high; `none` when Python `int()`
would raise on a malformed item. -/
def parse_supported_levels (s : String) : Option (List (Int × Int)) :=
  if s = "" then
    some [(0, 0), (1, 1), (2, 2), (3, 3), (4, 4), (5, 5), (6, 6)]
  else
    (parseLevelsItems s).map parse_supported_levels_core

/-! ## Refresh orchestration (`vehicle_coordinator.py`, the `refresh` closure) -/

/-- The `self.last_action` entry of the Kia client: `{"name": ..., "xid": ...}`. -/
structure LastAction where
  name : String
  xid : String
deriving DecidableEq, Repr

/-- One element of the `targetSOC` list. -/
structure SocEntry where
  plugType : Int
  targetSOClevel : Int
deriving DecidableEq, Repr

/-- The vehicle-status document handled by `refresh`.  Only the parts the
coordinator itself touches are structured (`targetSOC`, the
`last_action_status` key it adds); everything else in the JSON document is
carried opaquely in `rest`. -/
structure VData where
  targetSOC : Option (List SocEntry) := none
  lastActionStatus : Option LastAction := none
  rest : String := ""
deriving DecidableEq, Repr

/-- Outcome of the `while self.last_action_name is not None` wait loop at the
top of `refresh`. -/
inductive WaitPhase where
  | proceed
  | raised (e : ApiErr)
  | stuck
deriving DecidableEq, Repr

/-- The wait loop of `refresh`: while a pending action exists, poll
`check_last_action_finished`; break when it reports finished, or when the
check raises a `ClientError` (logged, and the refresh proceeds anyway); any
other exception propagates out of `refresh`.  The scripted list gives the
successive poll outcomes; `stuck` models the loop still waiting when the
script runs out. -/
def coordinator_wait (lastActionName : Option String) :
    List (Except ApiErr Bool) → WaitPhase
  | [] => if lastActionName = none then .proceed else .stuck
  | c :: cs =>
    if lastActionName = none then .proceed
    else
      match c with
      | .ok true => .proceed
      | .ok false => coordinator_wait lastActionName cs
      | .error e => if e.isClientError then .proceed else .raised e

/-- The body of `VehicleCoordinator.__init__.refresh`: wait out any pending
action, fetch the cached vehicle status, and on a `ClientError` return the
previous snapshot `self.data` unchanged when one exists (raising the error
when there is none); on success sort `targetSOC` by `plugType` and attach
`last_action_status`.  `none` models the wait loop never terminating within
the scripted poll outcomes. -/
def coordinator_refresh (prevData : Option VData) (lastActionName : Option String)
    (checks : List (Except ApiErr Bool)) (fetch : Except ApiErr VData)
    (lastAction : Option LastAction) : Option (Except ApiErr VData) :=
  match coordinator_wait lastActionName checks with
  | .stuck => none
  | .raised e => some (.error e)
  | .proceed =>
    match fetch with
    | .error e =>
      if e.isClientError then
        match prevData with
        | some d => some (.ok d)
        | none => some (.error e)
      else some (.error e)
    | .ok newData =>
      let sorted :=
        { newData with
          targetSOC := newData.targetSOC.map
            (List.insertionSort (fun a b => a.plugType ≤ b.plugType)) }
      some (.ok { sorted with lastActionStatus := lastAction })

/-! ## Kia USA client (`us_kia.py` together with `util_http.py`)

The client object is a `KiaState`; the world additionally records, per
endpoint, how many times it was called (so that the scripted environment can
give each invocation its own outcome) and the exact complete-login requests
and command URLs that were sent. -/

/-- Python `str.upper()` restricted to ASCII letters (all the strings the
client compares are ASCII). -/
def pyUpper (s : String) : String :=
  String.mk (s.toList.map Char.toUpper)

/-- Python `str.strip()` on a `String`. -/
def pyStripStr (s : String) : String :=
  String.mk (pyStrip s.toList)

/-- One entry of the `vehicleSummary` list cached by `get_vehicles`. -/
structure KiaVehicle where
  vehicleIdentifier : String
  vehicleKey : String
deriving DecidableEq, Repr

/-- The mutable attributes of a `UsKia` object. -/
structure KiaState where
  username : String := ""
  password : String := ""
  device_id : String := ""
  session_id : Option String := none
  refresh_token : Option String := none
  otp_key : Option String := none
  otp_xid : Option String := none
  notify_type : Option String := none
  vehicles : Option (List KiaVehicle) := none
  last_action : Option LastAction := none
deriving DecidableEq, Repr

/-- The response headers the Kia client reads: `sid`, `rmtoken`, `xid`
(lower case, OTP transaction) and `Xid` (capitalised, action tracking). -/
structure KiaHeaders where
  sid : Option String := none
  rmtoken : Option String := none
  xid : Option String := none
  capXid : Option String := none
deriving DecidableEq, Repr

/-- A vendor HTTP response as inspected by the `request_with_logging`
decorator: content type, the `status` envelope of the JSON body, response
headers, and the endpoint-specific payload. -/
structure KiaWire (π : Type) where
  contentTypeJson : Bool := true
  statusCode : Int := 0
  errorType : Int := 0
  errorCode : Int := 0
  errorMessage : String := ""
  headers : KiaHeaders := {}
  payload : π
deriving DecidableEq, Repr

/-- The OTP challenge payload of an `authUser` response
(`payload["otpKey"]` plus the fields the login flow reads). -/
structure OtpPayload where
  otpKey : String
  rmTokenExpired : Bool := false
  hasEmail : Bool := false
  hasPhone : Bool := false
deriving DecidableEq, Repr

/-- The complete-login (`prof/authUser` follow-up) request:
`sid` and `rmtoken` headers plus the JSON body with the device key and the
original user credentials. -/
structure CompleteReq where
  sid : String
  rmtoken : String
  userId : String
  password : String
  deviceKey : String
deriving DecidableEq, Repr

/-- A failure of the externally supplied OTP callback: an ordinary
exception, none of the `errors.py` classes. -/
inductive CallbackFail where
  | fail (msg : String)
deriving DecidableEq, Repr

def CallbackFail.toApiErr : CallbackFail → ApiErr
  | .fail m => .other m

/-- Scripted environment for the Kia client: each vendor endpoint and each
callback stage is a function of its invocation index (and of the data the
client sends it). -/
structure KiaEnv where
  authUser : Nat → Except TransportErr (KiaWire (Option OtpPayload))
  chooseDest : Nat → OtpPayload → Except CallbackFail (Option String)
  sendOtp : Nat → String → Except TransportErr (KiaWire Unit)
  inputCode : Nat → String → Except CallbackFail (Option String)
  verifyOtp : Nat → String → Except TransportErr (KiaWire Unit)
  completeLogin : Nat → CompleteReq → Except TransportErr (Option String)
  gvl : Nat → Except TransportErr (KiaWire (List KiaVehicle))
  gts : Nat → String → Except TransportErr (KiaWire (List Int))
  cmd : Nat → String → Except TransportErr (KiaWire Unit)

/-- Client state plus instrumentation: per-endpoint invocation counters, the
complete-login requests issued, and the command URLs dispatched. -/
structure KiaWorld where
  st : KiaState
  authUserCalls : Nat := 0
  chooseCalls : Nat := 0
  sendOtpCalls : Nat := 0
  codeCalls : Nat := 0
  verifyOtpCalls : Nat := 0
  completeLoginReqs : List CompleteReq := []
  gvlCalls : Nat := 0
  gtsCalls : Nat := 0
  cmdUrls : List String := []
deriving DecidableEq, Repr

/-- The response inspection of `util_http.request_with_logging`: non-JSON
content type becomes `AuthError`; `statusCode` 0 passes the response
through; error codes 1003/1005/1037/1165 become `AuthError`; error codes
1001/1132 clear `self.last_action` and become `ActionAlreadyInProgressError`;
anything else becomes a plain `ClientError`.  A transport-level exception
from aiohttp propagates unchanged. -/
def kiaEnveloped {π : Type} (res : Except TransportErr (KiaWire π)) (w : KiaWorld) :
    Except ApiErr (KiaWire π) × KiaWorld :=
  match res with
  | .error te => (.error te.toApiErr, w)
  | .ok r =>
    if r.contentTypeJson = false then
      (.error (.auth "API returned non-JSON response"), w)
    else if r.statusCode = 0 then (.ok r, w)
    else if r.statusCode = 1 ∧ r.errorType = 1 ∧
        (r.errorCode = 1003 ∨ r.errorCode = 1005 ∨ r.errorCode = 1037 ∨
          r.errorCode = 1165) then
      (.error (.auth ("api error:" ++ r.errorMessage)), w)
    else if r.statusCode = 1 ∧ r.errorType = 1 ∧
        (r.errorCode = 1001 ∨ r.errorCode = 1132) then
      (.error (.actionInProgress ("api error:" ++ r.errorMessage)),
        { w with st := { w.st with last_action := none } })
    else (.error (.client ("api error:" ++ r.errorMessage)), w)

/-- The `finally` clause of the OTP branch of `UsKia.login`. -/
def clearOtpFields (st : KiaState) : KiaState :=
  { st with otp_key := none, otp_xid := none, notify_type := none }

/-- `UsKia._send_otp`. -/
def kia_send_otp (env : KiaEnv) (notifyType : String) (w : KiaWorld) :
    Except ApiErr Unit × KiaWorld :=
  if notifyType ≠ "EMAIL" ∧ notifyType ≠ "SMS" then
    (.error (.valueError ("Invalid notify_type " ++ notifyType)), w)
  else if w.st.otp_key = none then (.error (.valueError "OTP key required"), w)
  else if w.st.otp_xid = none then (.error (.valueError "OTP xid required"), w)
  else
    let w₁ := { w with st := { w.st with notify_type := some notifyType } }
    let res := env.sendOtp w₁.sendOtpCalls notifyType
    let w₂ := { w₁ with sendOtpCalls := w₁.sendOtpCalls + 1 }
    match kiaEnveloped res w₂ with
    | (.error e, w₃) => (.error e, w₃)
    | (.ok _, w₃) => (.ok (), w₃)

/-- `UsKia._verify_otp`: returns the provisional `sid` and the `rmtoken`
from the verification response headers (raising `AuthError` when either is
missing or empty). -/
def kia_verify_otp (env : KiaEnv) (otpCode : String) (w : KiaWorld) :
    Except ApiErr (String × String) × KiaWorld :=
  if w.st.otp_key = none then (.error (.valueError "OTP key required"), w)
  else if w.st.otp_xid = none then (.error (.valueError "OTP xid required"), w)
  else
    let res := env.verifyOtp w.verifyOtpCalls otpCode
    let w₁ := { w with verifyOtpCalls := w.verifyOtpCalls + 1 }
    match kiaEnveloped res w₁ with
    | (.error e, w₂) => (.error e, w₂)
    | (.ok r, w₂) =>
      if r.statusCode ≠ 0 then
        (.error (.auth "OTP verification failed"), w₂)
      else
        let sid := (r.headers.sid).getD ""
        let rmtoken := (r.headers.rmtoken).getD ""
        if sid = "" ∨ rmtoken = "" then
          (.error (.auth "No session_id or rmtoken in OTP verification response"), w₂)
        else (.ok (sid, rmtoken), w₂)

/-- `UsKia._complete_login_with_otp`: posts `prof/authUser` again with the
provisional `sid`/`rmtoken` headers and the original credentials, directly
on the aiohttp session (no `request_with_logging` envelope), and returns the
final `sid` response header. -/
def kia_complete_login_with_otp (env : KiaEnv) (sid rmtoken : String) (w : KiaWorld) :
    Except ApiErr String × KiaWorld :=
  let req : CompleteReq :=
    { sid := sid, rmtoken := rmtoken, userId := w.st.username,
      password := w.st.password, deviceKey := w.st.device_id }
  let idx := w.completeLoginReqs.length
  let w₁ := { w with completeLoginReqs := w.completeLoginReqs ++ [req] }
  match env.completeLogin idx req with
  | .error te => (.error te.toApiErr, w₁)
  | .ok sidHeader =>
    let finalSid := sidHeader.getD ""
    if finalSid = "" then
      (.error (.auth "No final sid returned in complete login"), w₁)
    else (.ok finalSid, w₁)

/-- The `try` block of the OTP branch of `UsKia.login`: choose a
destination via the callback (defaulting to EMAIL, upper-cased), send the
OTP, collect the code via the callback (stripped; empty raises
`AuthError`), verify it, and complete the login with the provisional
session; on success store the final sid and the verified rmtoken. -/
def kia_login_otp_try (env : KiaEnv) (p : OtpPayload) (w : KiaWorld) :
    Except ApiErr Unit × KiaWorld :=
  let cres := env.chooseDest w.chooseCalls p
  let w₁ := { w with chooseCalls := w.chooseCalls + 1 }
  match cres with
  | .error cf => (.error cf.toApiErr, w₁)
  | .ok ntField =>
    let notifyType := pyUpper (ntField.getD "EMAIL")
    match kia_send_otp env notifyType w₁ with
    | (.error e, w₂) => (.error e, w₂)
    | (.ok _, w₂) =>
      let ires := env.inputCode w₂.codeCalls notifyType
      let w₃ := { w₂ with codeCalls := w₂.codeCalls + 1 }
      match ires with
      | .error cf => (.error cf.toApiErr, w₃)
      | .ok codeField =>
        let otpCode := pyStripStr (codeField.getD "")
        if otpCode = "" then (.error (.auth "OTP code required"), w₃)
        else
          match kia_verify_otp env otpCode w₃ with
          | (.error e, w₄) => (.error e, w₄)
          | (.ok (sid, rmtoken), w₄) =>
            match kia_complete_login_with_otp env sid rmtoken w₄ with
            | (.error e, w₅) => (.error e, w₅)
            | (.ok finalSid, w₅) =>
              (.ok (), { w₅ with st := { w₅.st with
                session_id := some finalSid, refresh_token := some rmtoken } })

/-- The whole OTP branch of `UsKia.login`: clear the stored refresh token
when the vendor reports it expired, store the challenge key and the `xid`
header, run the `try` block, and apply the `finally` clause — clearing the
transient OTP fields — to whatever state the `try` block exits in. -/
def kia_login_otp_branch (env : KiaEnv) (r : KiaWire (Option OtpPayload))
    (p : OtpPayload) (w : KiaWorld) : Except ApiErr Unit × KiaWorld :=
  let st₄ := if p.rmTokenExpired then { w.st with refresh_token := none } else w.st
  let w₅ := { w with st := { st₄ with
    otp_key := some p.otpKey, otp_xid := some ((r.headers.xid).getD "") } }
  let rt := kia_login_otp_try env p w₅
  (rt.1, { rt.2 with st := clearOtpFields rt.2.st })

/-- `UsKia.login`: post `prof/authUser`; a non-empty `sid` header means
direct success; otherwise an `otpKey` payload starts the OTP branch (whose
transient fields are cleared by `finally` on every exit), and anything else
raises `AuthError`. -/
def kia_login (env : KiaEnv) (w : KiaWorld) : Except ApiErr Unit × KiaWorld :=
  let res := env.authUser w.authUserCalls
  let w₁ := { w with authUserCalls := w.authUserCalls + 1 }
  match kiaEnveloped res w₁ with
  | (.error e, w₂) => (.error e, w₂)
  | (.ok r, w₂) =>
    let w₃ := { w₂ with st := { w₂.st with session_id := r.headers.sid } }
    if (r.headers.sid).getD "" ≠ "" then (.ok (), w₃)
    else
      match r.payload with
      | some p => kia_login_otp_branch env r p w₃
      | none => (.error (.auth "No session id returned in login"), w₃)

/-- The state reset performed by `util_http.request_with_active_session`
when it catches an `AuthError`. -/
def kiaSessionReset (st : KiaState) : KiaState :=
  { st with session_id := none, vehicles := none, last_action := none }

/-- `util_http.request_with_active_session`: run the wrapped call; when it
raises an `AuthError` (or a subclass), reset the session state and run the
call a second time, whose outcome — success or any exception — is returned
as is. -/
def request_with_active_session {α : Type}
    (f : KiaWorld → Except ApiErr α × KiaWorld) (w : KiaWorld) :
    Except ApiErr α × KiaWorld :=
  match f w with
  | (.ok a, w₁) => (.ok a, w₁)
  | (.error e, w₁) =>
    if e.isAuthError then f { w₁ with st := kiaSessionReset w₁.st }
    else (.error e, w₁)

/-- The body shared by `_get/_post_request_with_logging_and_errors_raised`
with `authed=True`: log in first when no session id is present, then issue
the request and run it through the `request_with_logging` inspection. -/
def kiaAuthedRequest {π : Type} (env : KiaEnv)
    (fetch : KiaWorld → Except TransportErr (KiaWire π) × KiaWorld)
    (w : KiaWorld) : Except ApiErr (KiaWire π) × KiaWorld :=
  match (if w.st.session_id = none then kia_login env w else (.ok (), w)) with
  | (.error e, w₁) => (.error e, w₁)
  | (.ok _, w₁) =>
    let fr := fetch w₁
    kiaEnveloped fr.1 fr.2

/-- The `ownr/gvl` request. -/
def gvlFetch (env : KiaEnv) (w : KiaWorld) :
    Except TransportErr (KiaWire (List KiaVehicle)) × KiaWorld :=
  (env.gvl w.gvlCalls, { w with gvlCalls := w.gvlCalls + 1 })

/-- The `cmm/gts` request for a given action `xid`. -/
def gtsFetch (env : KiaEnv) (xid : String) (w : KiaWorld) :
    Except TransportErr (KiaWire (List Int)) × KiaWorld :=
  (env.gts w.gtsCalls xid, { w with gtsCalls := w.gtsCalls + 1 })

/-- A remote-command request (`rems/door/lock`, `rems/start`, ...). -/
def cmdFetch (env : KiaEnv) (url : String) (w : KiaWorld) :
    Except TransportErr (KiaWire Unit) × KiaWorld :=
  (env.cmd w.cmdUrls.length url, { w with cmdUrls := w.cmdUrls ++ [url] })

/-- The body of `UsKia.get_vehicles`: fetch `ownr/gvl` and cache
`payload["vehicleSummary"]` in `self.vehicles`. -/
def kia_get_vehicles_inner (env : KiaEnv) (w : KiaWorld) :
    Except ApiErr Unit × KiaWorld :=
  match kiaAuthedRequest env (gvlFetch env) w with
  | (.error e, w₁) => (.error e, w₁)
  | (.ok r, w₁) => (.ok (), { w₁ with st := { w₁.st with vehicles := some r.payload } })

/-- `UsKia.get_vehicles` as decorated with `@request_with_active_session`. -/
def kia_get_vehicles (env : KiaEnv) (w : KiaWorld) : Except ApiErr Unit × KiaWorld :=
  request_with_active_session (kia_get_vehicles_inner env) w

/-- `UsKia.find_vehicle_key`: fetch the vehicle list only when no cache
exists, then look the id up in the cache, raising `ValueError` when it is
absent (with no further refetch). -/
def kia_find_vehicle_key (env : KiaEnv) (vehicleId : String) (w : KiaWorld) :
    Except ApiErr String × KiaWorld :=
  match (if w.st.vehicles = none then kia_get_vehicles env w else (.ok (), w)) with
  | (.error e, w₁) => (.error e, w₁)
  | (.ok _, w₁) =>
    match w₁.st.vehicles with
    | none => (.error (.valueError "no vehicles found"), w₁)
    | some vs =>
      match vs.find? (fun v => v.vehicleIdentifier = vehicleId) with
      | some v => (.ok v.vehicleKey, w₁)
      | none =>
        (.error (.valueError ("vehicle key for id:" ++ vehicleId ++ " not found")), w₁)

/-- The body of `UsKia.check_last_action_finished`: resolve the vehicle key,
return `True` when no action is pending, otherwise poll `cmm/gts` with the
pending `xid`; the action is finished when every value of the response
payload is 0, in which case `self.last_action` is cleared. -/
def kia_check_last_action_finished_inner (env : KiaEnv) (vehicleId : String)
    (w : KiaWorld) : Except ApiErr Bool × KiaWorld :=
  match kia_find_vehicle_key env vehicleId w with
  | (.error e, w₁) => (.error e, w₁)
  | (.ok _, w₁) =>
    match w₁.st.last_action with
    | none => (.ok true, w₁)
    | some la =>
      match kiaAuthedRequest env (gtsFetch env la.xid) w₁ with
      | (.error e, w₂) => (.error e, w₂)
      | (.ok r, w₂) =>
        let finished := r.payload.all (fun v => v = 0)
        if finished then
          (.ok true, { w₂ with st := { w₂.st with last_action := none } })
        else (.ok false, w₂)

/-- `UsKia.check_last_action_finished` as decorated. -/
def kia_check_last_action_finished (env : KiaEnv) (vehicleId : String)
    (w : KiaWorld) : Except ApiErr Bool × KiaWorld :=
  request_with_active_session (kia_check_last_action_finished_inner env vehicleId) w

/-- The body of `UsKia.lock`: refuse with `ActionAlreadyInProgressError`
when the pending action is not finished, otherwise dispatch
`rems/door/lock` and record the response `Xid` header as the new
`self.last_action` (a missing `Xid` header is a Python `KeyError`). -/
def kia_lock_inner (env : KiaEnv) (vehicleId : String) (w : KiaWorld) :
    Except ApiErr Unit × KiaWorld :=
  match kia_check_last_action_finished env vehicleId w with
  | (.error e, w₁) => (.error e, w₁)
  | (.ok false, w₁) =>
    (.error (.actionInProgress
      (((w₁.st.last_action.map LastAction.name).getD "") ++ " still pending")), w₁)
  | (.ok true, w₁) =>
    match kia_find_vehicle_key env vehicleId w₁ with
    | (.error e, w₂) => (.error e, w₂)
    | (.ok _, w₂) =>
      match kiaAuthedRequest env (cmdFetch env "rems/door/lock") w₂ with
      | (.error e, w₃) => (.error e, w₃)
      | (.ok r, w₃) =>
        match r.headers.capXid with
        | none => (.error (.keyError "Xid"), w₃)
        | some x =>
          (.ok (), { w₃ with st := { w₃.st with
            last_action := some { name := "lock", xid := x } } })

/-- `UsKia.lock` as decorated. -/
def kia_lock (env : KiaEnv) (vehicleId : String) (w : KiaWorld) :
    Except ApiErr Unit × KiaWorld :=
  request_with_active_session (kia_lock_inner env vehicleId) w

/-! ## Hyundai and Genesis BlueLink clients (`us_hyundai.py`, `us_genesis.py`) -/

/-- A vehicle dictionary as built by `get_vehicles` of the BlueLink clients.
In the source both the `"id"` and `"regid"` keys are set to
`vehicleDetails.get("regid")`, so they are represented by the single field
`regid` (the `find_vehicle` check `id == vehicle_id or regid == vehicle_id`
is therefore a single comparison). -/
structure BlVehicle where
  regid : String
  vin : String := ""
  nickName : String := ""
  modelCode : String := ""
  modelYear : String := ""
  evStatus : String := "N"
  generation : Int := 2
  enrollmentStatus : String := ""
deriving DecidableEq, Repr

/-- A BlueLink response as inspected by
`util_http.request_with_logging_bluelink`. -/
structure BlWire (π : Type) where
  contentTypeJson : Bool := true
  errorCode : Option Int := none
  errorMessage : String := ""
  payload : π
deriving DecidableEq, Repr

/-- `request_with_logging_bluelink`: non-JSON content type becomes
`AuthError`; a present non-zero `errorCode` becomes `AuthError` for
401/403/1003/1005 and a plain `ClientError` otherwise; everything else
passes through.  (This decorator never touches client state.) -/
def blEnveloped {π : Type} (res : Except TransportErr (BlWire π)) :
    Except ApiErr (BlWire π) :=
  match res with
  | .error te => .error te.toApiErr
  | .ok r =>
    if r.contentTypeJson = false then
      .error (.auth "API returned non-JSON response")
    else
      match r.errorCode with
      | some c =>
        if c ≠ 0 then
          if c = 401 ∨ c = 403 ∨ c = 1003 ∨ c = 1005 then
            .error (.auth ("BlueLink auth error: " ++ r.errorMessage))
          else .error (.client ("BlueLink API error: " ++ r.errorMessage))
        else .ok r
      | none => .ok r

/-- The JSON body of an `oauth/token` response (`expires_in` is only read by
the Genesis client). -/
structure BlLoginPayload where
  access_token : Option String := none
  refresh_token : Option String := none
  expires_in : Option Int := none
  errorMessage : String := "Unknown error"
deriving DecidableEq, Repr

/-- The mutable attributes of a `UsHyundai` object: unlike Genesis it keeps
no token expiry timestamp at all. -/
structure HyState where
  username : String := ""
  password : String := ""
  pin : String := ""
  device_id : String := ""
  access_token : Option String := none
  refresh_token : Option String := none
  vehicles : Option (List BlVehicle) := none
  last_action : Option LastAction := none
deriving DecidableEq, Repr

/-- Scripted environment for the Hyundai client. -/
structure HyEnv where
  loginPost : Nat → Except TransportErr (BlWire BlLoginPayload)
  enroll : Nat → Except TransportErr (BlWire (List BlVehicle))
  cmd : Nat → String → Except TransportErr (BlWire Unit)

/-- Hyundai client state plus instrumentation: invocation counters, the
command URLs dispatched, and the access token attached to each
authenticated request (`headers["accessToken"] = self.access_token or ""`). -/
structure HyWorld where
  st : HyState
  loginCalls : Nat := 0
  enrollCalls : Nat := 0
  cmdUrls : List String := []
  usedTokens : List String := []
deriving DecidableEq, Repr

/-- `UsHyundai.login`: post `oauth/token`; a truthy `access_token` in the
body is stored together with `refresh_token`, anything else raises
`AuthError` (the Hyundai login has no PIN-lockout check and records no
expiry). -/
def hyundai_login (env : HyEnv) (w : HyWorld) : Except ApiErr Unit × HyWorld :=
  let res := env.loginPost w.loginCalls
  let w₁ := { w with loginCalls := w.loginCalls + 1 }
  match blEnveloped res with
  | .error e => (.error e, w₁)
  | .ok r =>
    if (r.payload.access_token).getD "" ≠ "" then
      (.ok (), { w₁ with st := { w₁.st with
        access_token := r.payload.access_token,
        refresh_token := r.payload.refresh_token } })
    else
      (.error (.auth ("Hyundai login failed: " ++ r.payload.errorMessage)), w₁)

/-- `UsHyundai.get_vehicles`: login only when no token is held, fetch the
enrollment document and cache the vehicles whose `enrollmentStatus` is not
CANCELLED. -/
def hyundai_get_vehicles (env : HyEnv) (w : HyWorld) : Except ApiErr Unit × HyWorld :=
  match (if w.st.access_token = none then hyundai_login env w else (.ok (), w)) with
  | (.error e, w₁) => (.error e, w₁)
  | (.ok _, w₁) =>
    let res := env.enroll w₁.enrollCalls
    let w₂ := { w₁ with
      enrollCalls := w₁.enrollCalls + 1,
      usedTokens := w₁.usedTokens ++ [(w₁.st.access_token).getD ""] }
    match blEnveloped res with
    | .error e => (.error e, w₂)
    | .ok r =>
      (.ok (), { w₂ with st := { w₂.st with
        vehicles := some (r.payload.filter
          (fun v => v.enrollmentStatus ≠ "CANCELLED")) } })

/-- `UsHyundai.find_vehicle`: fetch the list only when no cache exists, then
look the id up, raising `ValueError` when absent (no refetch on a miss). -/
def hyundai_find_vehicle (env : HyEnv) (vehicleId : String) (w : HyWorld) :
    Except ApiErr BlVehicle × HyWorld :=
  match (if w.st.vehicles = none then hyundai_get_vehicles env w else (.ok (), w)) with
  | (.error e, w₁) => (.error e, w₁)
  | (.ok _, w₁) =>
    match w₁.st.vehicles with
    | none => (.error (.valueError "No vehicles found"), w₁)
    | some vs =>
      match vs.find? (fun v => v.regid = vehicleId) with
      | some v => (.ok v, w₁)
      | none => (.error (.valueError ("Vehicle " ++ vehicleId ++ " not found")), w₁)

/-- A Hyundai vehicle-command POST with authenticated vehicle headers. -/
def hyundaiCmdPost (env : HyEnv) (url : String) (w : HyWorld) :
    Except ApiErr Unit × HyWorld :=
  let res := env.cmd w.cmdUrls.length url
  let w₁ := { w with
    cmdUrls := w.cmdUrls ++ [url],
    usedTokens := w.usedTokens ++ [(w.st.access_token).getD ""] }
  match blEnveloped res with
  | .error e => (.error e, w₁)
  | .ok _ => (.ok (), w₁)

/-- `UsHyundai.lock`: login if no token, resolve the vehicle, post
`rcs/rdo/off` — note that no pending action is checked or recorded. -/
def hyundai_lock (env : HyEnv) (vehicleId : String) (w : HyWorld) :
    Except ApiErr Unit × HyWorld :=
  match (if w.st.access_token = none then hyundai_login env w else (.ok (), w)) with
  | (.error e, w₁) => (.error e, w₁)
  | (.ok _, w₁) =>
    match hyundai_find_vehicle env vehicleId w₁ with
    | (.error e, w₂) => (.error e, w₂)
    | (.ok _, w₂) => hyundaiCmdPost env "rcs/rdo/off" w₂

/-- `UsHyundai.check_last_action_finished`: a placeholder that always
returns `True` without any vendor call or state change. -/
def hyundai_check_last_action_finished (_env : HyEnv) (_vehicleId : String)
    (w : HyWorld) : Except ApiErr Bool × HyWorld :=
  (.ok true, w)

/-- `UsHyundai.start_charge`: returns silently on a non-EV
(`evStatus != "E"`), otherwise posts `evc/charge/start`. -/
def hyundai_start_charge (env : HyEnv) (vehicleId : String) (w : HyWorld) :
    Except ApiErr Unit × HyWorld :=
  match (if w.st.access_token = none then hyundai_login env w else (.ok (), w)) with
  | (.error e, w₁) => (.error e, w₁)
  | (.ok _, w₁) =>
    match hyundai_find_vehicle env vehicleId w₁ with
    | (.error e, w₂) => (.error e, w₂)
    | (.ok v, w₂) =>
      if v.evStatus ≠ "E" then (.ok (), w₂)
      else hyundaiCmdPost env "evc/charge/start" w₂

/-- `UsHyundai.stop_charge`: returns silently on a non-EV, otherwise posts
`evc/charge/stop`. -/
def hyundai_stop_charge (env : HyEnv) (vehicleId : String) (w : HyWorld) :
    Except ApiErr Unit × HyWorld :=
  match (if w.st.access_token = none then hyundai_login env w else (.ok (), w)) with
  | (.error e, w₁) => (.error e, w₁)
  | (.ok _, w₁) =>
    match hyundai_find_vehicle env vehicleId w₁ with
    | (.error e, w₂) => (.error e, w₂)
    | (.ok v, w₂) =>
      if v.evStatus ≠ "E" then (.ok (), w₂)
      else hyundaiCmdPost env "evc/charge/stop" w₂

/-- `UsHyundai.set_charge_limits`: returns silently on a non-EV, otherwise
posts `evc/charge/targetsoc/set` with the DC entry (plugType 0) before the
AC entry (plugType 1). -/
def hyundai_set_charge_limits (env : HyEnv) (vehicleId : String)
    (_acLimit _dcLimit : Int) (w : HyWorld) : Except ApiErr Unit × HyWorld :=
  match (if w.st.access_token = none then hyundai_login env w else (.ok (), w)) with
  | (.error e, w₁) => (.error e, w₁)
  | (.ok _, w₁) =>
    match hyundai_find_vehicle env vehicleId w₁ with
    | (.error e, w₂) => (.error e, w₂)
    | (.ok v, w₂) =>
      if v.evStatus ≠ "E" then (.ok (), w₂)
      else hyundaiCmdPost env "evc/charge/targetsoc/set" w₂

/-- The mutable attributes of a `UsGenesis` object: additionally tracks
`token_expires_at`. -/
structure GenState where
  username : String := ""
  password : String := ""
  pin : String := ""
  device_id : String := ""
  access_token : Option String := none
  refresh_token : Option String := none
  token_expires_at : Option Int := none
  vehicles : Option (List BlVehicle) := none
  last_action : Option LastAction := none
deriving DecidableEq, Repr

/-- Scripted environment for the Genesis client; `now` scripts the
successive `datetime.now` readings (epoch seconds). -/
structure GenEnv where
  now : Nat → Int
  loginPost : Nat → Except TransportErr (BlWire BlLoginPayload)
  enroll : Nat → Except TransportErr (BlWire (List BlVehicle))
  cmd : Nat → String → Except TransportErr (BlWire Unit)

/-- Genesis client state plus instrumentation. -/
structure GenWorld where
  st : GenState
  clockReads : Nat := 0
  loginCalls : Nat := 0
  enrollCalls : Nat := 0
  cmdUrls : List String := []
  usedTokens : List String := []
deriving DecidableEq, Repr

/-- `UsGenesis.TOKEN_REFRESH_BUFFER_SECONDS`. -/
def TOKEN_REFRESH_BUFFER_SECONDS : Int := 300

/-- The Genesis login failure classification:
`"PIN" in error_msg.upper() and "LOCKED" in error_msg.upper()`. -/
def msgIndicatesPinLock (msg : String) : Bool :=
  decide ("PIN".toList <:+: (pyUpper msg).toList) &&
    decide ("LOCKED".toList <:+: (pyUpper msg).toList)

/-- `UsGenesis._is_token_valid`: no token is invalid; a token with no
tracked expiry is assumed valid; otherwise the token counts as invalid from
`TOKEN_REFRESH_BUFFER_SECONDS` before its expiry. -/
def genesis_is_token_valid (now : Int) (st : GenState) : Bool :=
  match st.access_token with
  | none => false
  | some _ =>
    match st.token_expires_at with
    | none => true
    | some exp => decide (now < exp - TOKEN_REFRESH_BUFFER_SECONDS)

/-- `UsGenesis.login`: like the Hyundai login, but stores
`now + expires_in` as the expiry (expiry tracking disabled when
`expires_in` is absent or falsy) and raises `PINLockedError` instead of
`AuthError` when the failure message mentions a locked PIN. -/
def genesis_login (env : GenEnv) (w : GenWorld) : Except ApiErr Unit × GenWorld :=
  let res := env.loginPost w.loginCalls
  let w₁ := { w with loginCalls := w.loginCalls + 1 }
  match blEnveloped res with
  | .error e => (.error e, w₁)
  | .ok r =>
    if (r.payload.access_token).getD "" ≠ "" then
      let stTok := { w₁.st with
        access_token := r.payload.access_token,
        refresh_token := r.payload.refresh_token }
      match r.payload.expires_in with
      | some n =>
        if n ≠ 0 then
          (.ok (), { w₁ with
            clockReads := w₁.clockReads + 1,
            st := { stTok with token_expires_at := some (env.now w₁.clockReads + n) } })
        else (.ok (), { w₁ with st := { stTok with token_expires_at := none } })
      | none => (.ok (), { w₁ with st := { stTok with token_expires_at := none } })
    else
      if msgIndicatesPinLock r.payload.errorMessage then
        (.error (.pinLocked ("Genesis PIN locked: " ++ r.payload.errorMessage)), w₁)
      else
        (.error (.auth ("Genesis login failed: " ++ r.payload.errorMessage)), w₁)

/-- `UsGenesis._ensure_token_valid`: return at once when the token is valid
(by the buffer rule); otherwise clear the token and expiry and log in —
`PINLockedError` and other `AuthError`s from the login are re-raised
unchanged. -/
def genesis_ensure_token_valid (env : GenEnv) (w : GenWorld) :
    Except ApiErr Unit × GenWorld :=
  let nowv := env.now w.clockReads
  let w₁ := { w with clockReads := w.clockReads + 1 }
  if genesis_is_token_valid nowv w₁.st then (.ok (), w₁)
  else
    genesis_login env
      { w₁ with st := { w₁.st with access_token := none, token_expires_at := none } }

/-- `UsGenesis.get_vehicles`: proactively ensure token validity, then fetch
and cache the enrollment list. -/
def genesis_get_vehicles (env : GenEnv) (w : GenWorld) : Except ApiErr Unit × GenWorld :=
  match genesis_ensure_token_valid env w with
  | (.error e, w₁) => (.error e, w₁)
  | (.ok _, w₁) =>
    let res := env.enroll w₁.enrollCalls
    let w₂ := { w₁ with
      enrollCalls := w₁.enrollCalls + 1,
      usedTokens := w₁.usedTokens ++ [(w₁.st.access_token).getD ""] }
    match blEnveloped res with
    | .error e => (.error e, w₂)
    | .ok r =>
      (.ok (), { w₂ with st := { w₂.st with
        vehicles := some (r.payload.filter
          (fun v => v.enrollmentStatus ≠ "CANCELLED")) } })

/-- `UsGenesis.find_vehicle` (same shape as the Hyundai one). -/
def genesis_find_vehicle (env : GenEnv) (vehicleId : String) (w : GenWorld) :
    Except ApiErr BlVehicle × GenWorld :=
  match (if w.st.vehicles = none then genesis_get_vehicles env w else (.ok (), w)) with
  | (.error e, w₁) => (.error e, w₁)
  | (.ok _, w₁) =>
    match w₁.st.vehicles with
    | none => (.error (.valueError "No vehicles found"), w₁)
    | some vs =>
      match vs.find? (fun v => v.regid = vehicleId) with
      | some v => (.ok v, w₁)
      | none => (.error (.valueError ("Vehicle " ++ vehicleId ++ " not found")), w₁)

/-- A Genesis vehicle-command POST with authenticated vehicle headers. -/
def genesisCmdPost (env : GenEnv) (url : String) (w : GenWorld) :
    Except ApiErr Unit × GenWorld :=
  let res := env.cmd w.cmdUrls.length url
  let w₁ := { w with
    cmdUrls := w.cmdUrls ++ [url],
    usedTokens := w.usedTokens ++ [(w.st.access_token).getD ""] }
  match blEnveloped res with
  | .error e => (.error e, w₁)
  | .ok _ => (.ok (), w₁)

/-- `UsGenesis.lock`: ensure token validity, resolve the vehicle, post
`rcs/rdo/off` — again no pending action is checked or recorded. -/
def genesis_lock (env : GenEnv) (vehicleId : String) (w : GenWorld) :
    Except ApiErr Unit × GenWorld :=
  match genesis_ensure_token_valid env w with
  | (.error e, w₁) => (.error e, w₁)
  | (.ok _, w₁) =>
    match genesis_find_vehicle env vehicleId w₁ with
    | (.error e, w₂) => (.error e, w₂)
    | (.ok _, w₂) => genesisCmdPost env "rcs/rdo/off" w₂

/-- `UsGenesis.start_charge`: returns silently on a non-EV, otherwise posts
`evc/charge/start`. -/
def genesis_start_charge (env : GenEnv) (vehicleId : String) (w : GenWorld) :
    Except ApiErr Unit × GenWorld :=
  match genesis_ensure_token_valid env w with
  | (.error e, w₁) => (.error e, w₁)
  | (.ok _, w₁) =>
    match genesis_find_vehicle env vehicleId w₁ with
    | (.error e, w₂) => (.error e, w₂)
    | (.ok v, w₂) =>
      if v.evStatus ≠ "E" then (.ok (), w₂)
      else genesisCmdPost env "evc/charge/start" w₂

/-- `UsGenesis.stop_charge`: returns silently on a non-EV, otherwise posts
`evc/charge/stop`. -/
def genesis_stop_charge (env : GenEnv) (vehicleId : String) (w : GenWorld) :
    Except ApiErr Unit × GenWorld :=
  match genesis_ensure_token_valid env w with
  | (.error e, w₁) => (.error e, w₁)
  | (.ok _, w₁) =>
    match genesis_find_vehicle env vehicleId w₁ with
    | (.error e, w₂) => (.error e, w₂)
    | (.ok v, w₂) =>
      if v.evStatus ≠ "E" then (.ok (), w₂)
      else genesisCmdPost env "evc/charge/stop" w₂

/-- `UsGenesis.set_charge_limits`: returns silently on a non-EV, otherwise
posts `evc/charge/targetsoc/set`. -/
def genesis_set_charge_limits (env : GenEnv) (vehicleId : String)
    (_acLimit _dcLimit : Int) (w : GenWorld) : Except ApiErr Unit × GenWorld :=
  match genesis_ensure_token_valid env w with
  | (.error e, w₁) => (.error e, w₁)
  | (.ok _, w₁) =>
    match genesis_find_vehicle env vehicleId w₁ with
    | (.error e, w₂) => (.error e, w₂)
    | (.ok v, w₂) =>
      if v.evStatus ≠ "E" then (.ok (), w₂)
      else genesisCmdPost env "evc/charge/targetsoc/set" w₂

/-- `UsGenesis.check_last_action_finished`: a placeholder that always
returns `True`. -/
def genesis_check_last_action_finished (_env : GenEnv) (_vehicleId : String)
    (w : GenWorld) : Except ApiErr Bool × GenWorld :=
  (.ok true, w)

/-! ## Concrete scripted environments used by the witness theorems -/

/-- Genesis environment whose login always fails with a PIN-lockout
message. -/
def genEnvPin : GenEnv :=
  { now := fun _ => 1000,
    loginPost := fun _ => .ok { payload := { errorMessage := "PIN LOCKED" } },
    enroll := fun _ => .error (.network "unused"),
    cmd := fun _ _ => .error (.network "unused") }

/-- A Genesis client that holds no token yet. -/
def genWPin : GenWorld := { st := { username := "u" } }

/-- Kia environment scripting a full successful OTP login: `authUser`
returns an OTP challenge, the callback chooses email, the code is accepted,
and the complete-login call returns the final session id. -/
def kiaEnvC1 : KiaEnv :=
  { authUser := fun _ =>
      .ok { headers := { xid := some "X1" }, payload := some { otpKey := "OK1" } },
    chooseDest := fun _ _ => .ok (some "email"),
    sendOtp := fun _ _ => .ok { payload := () },
    inputCode := fun _ _ => .ok (some "482913"),
    verifyOtp := fun _ _ =>
      .ok { payload := (), headers := { sid := some "PROV", rmtoken := some "RM" } },
    completeLogin := fun _ _ => .ok (some "FINAL"),
    gvl := fun _ => .error (.network "unused"),
    gts := fun _ _ => .error (.network "unused"),
    cmd := fun _ _ => .error (.network "unused") }

/-- A fresh Kia client with credentials only. -/
def kiaWC1 : KiaWorld :=
  { st := { username := "user", password := "pw", device_id := "DEV" } }

/-- Hyundai environment where every command post succeeds. -/
def hyEnvOk : HyEnv :=
  { loginPost := fun _ => .error (.network "unused"),
    enroll := fun _ => .error (.network "unused"),
    cmd := fun _ _ => .ok { payload := () } }

/-- A Hyundai client holding a token, with one cached vehicle. -/
def hyWLock : HyWorld :=
  { st := { username := "u", access_token := some "tok",
            vehicles := some [{ regid := "V1" }] } }

/-- Kia environment whose action-status poll reports the pending action
still running (a non-zero payload value). -/
def kiaEnvBusy : KiaEnv :=
  { authUser := fun _ => .error (.network "unused"),
    chooseDest := fun _ _ => .error (.fail "unused"),
    sendOtp := fun _ _ => .error (.network "unused"),
    inputCode := fun _ _ => .error (.fail "unused"),
    verifyOtp := fun _ _ => .error (.network "unused"),
    completeLogin := fun _ _ => .error (.network "unused"),
    gvl := fun _ => .error (.network "unused"),
    gts := fun _ _ => .ok { payload := [1] },
    cmd := fun _ _ => .ok { payload := (), headers := { capXid := some "X9" } } }

/-- Kia environment whose action-status poll reports the pending action
finished (all payload values zero). -/
def kiaEnvDone : KiaEnv :=
  { kiaEnvBusy with gts := fun _ _ => .ok { payload := [0, 0] } }

/-- A Kia client with a session, one cached vehicle and a pending
`start_climate` action. -/
def kiaWBusy : KiaWorld :=
  { st := { username := "u", session_id := some "S",
            vehicles := some [{ vehicleIdentifier := "V1", vehicleKey := "K1" }],
            last_action := some { name := "start_climate", xid := "XID0" } } }

/-- A Kia client with a session and a cached vehicle list holding only
vehicle "A". -/
def kiaWFind : KiaWorld :=
  { st := { username := "u", session_id := some "S",
            vehicles := some [{ vehicleIdentifier := "A", vehicleKey := "KA" }] } }

/-- Kia environment whose vehicle-list fetch returns vehicle "A". -/
def kiaEnvGvl : KiaEnv :=
  { kiaEnvBusy with
    gvl := fun _ =>
      .ok { payload := [{ vehicleIdentifier := "A", vehicleKey := "KA" }] } }

/-- A Kia client with a session and no cached vehicle list. -/
def kiaWNoCache : KiaWorld :=
  { st := { username := "u", session_id := some "S" } }

/-- Hyundai environment whose enrollment fetch returns one non-EV
vehicle. -/
def hyEnvEnroll : HyEnv :=
  { loginPost := fun _ => .error (.network "unused"),
    enroll := fun _ => .ok { payload := [{ regid := "V1", evStatus := "N" }] },
    cmd := fun _ _ => .ok { payload := () } }

/-- A Hyundai client holding a (possibly long-expired) token — its state
has no expiry timestamp to consult. -/
def hyWStale : HyWorld :=
  { st := { username := "u", access_token := some "staletok" } }

/-- Genesis environment: the clock reads 1000 and a login succeeds with a
fresh token. -/
def genEnvFresh : GenEnv :=
  { now := fun _ => 1000,
    loginPost := fun _ =>
      .ok { payload := { access_token := some "newtok" } },
    enroll := fun _ => .ok { payload := [{ regid := "V1", evStatus := "N" }] },
    cmd := fun _ _ => .ok { payload := () } }

/-- A Genesis client whose token expires at 1100 — within the 300-second
refresh buffer of the clock reading 1000. -/
def genWStale : GenWorld :=
  { st := { username := "u", access_token := some "staletok",
            token_expires_at := some 1100 } }

/-- A Hyundai client holding a token, with a cached non-EV vehicle. -/
def hyWCharge : HyWorld :=
  { st := { username := "u", access_token := some "tok",
            vehicles := some [{ regid := "V1", evStatus := "N" }] } }

/-- A Genesis client whose token is valid far beyond the buffer, with a
cached non-EV vehicle. -/
def genWCharge : GenWorld :=
  { st := { username := "u", access_token := some "tok",
            token_expires_at := some 999999,
            vehicles := some [{ regid := "V1", evStatus := "N" }] } }

/-! ## Theorems for claims C6 and C7 -/

/-- C6: the Kia raw seat-status lookup is total on the integers and maps
0 and 2 to off, 1 to generic-on heat, 3,4,5 to cool low/medium/high,
6,7,8 to heat low/medium/high, and every value outside 0..8 to off. -/
theorem seat_status_table :
    parse_seat_status_raw 0 = { heatVentType := 0, heatVentLevel := 1 } ∧
    parse_seat_status_raw 2 = { heatVentType := 0, heatVentLevel := 1 } ∧
    parse_seat_status_raw 1 = { heatVentType := 1, heatVentLevel := 2 } ∧
    parse_seat_status_raw 3 = { heatVentType := 2, heatVentLevel := 2 } ∧
    parse_seat_status_raw 4 = { heatVentType := 2, heatVentLevel := 3 } ∧
    parse_seat_status_raw 5 = { heatVentType := 2, heatVentLevel := 4 } ∧
    parse_seat_status_raw 6 = { heatVentType := 1, heatVentLevel := 2 } ∧
    parse_seat_status_raw 7 = { heatVentType := 1, heatVentLevel := 3 } ∧
    parse_seat_status_raw 8 = { heatVentType := 1, heatVentLevel := 4 } ∧
    (∀ n : Int, n < 0 ∨ 8 < n →
      parse_seat_status_raw n = { heatVentType := 0, heatVentLevel := 1 }) := by
  refine ⟨by decide, by decide, by decide, by decide, by decide, by decide,
    by decide, by decide, by decide, ?_⟩
  intro n hn
  unfold parse_seat_status_raw
  rcases hn with h | h
  · rw [if_neg (by omega), if_neg (by omega), if_neg (by omega), if_neg (by omega)]
  · rw [if_neg (by omega), if_neg (by omega), if_neg (by omega), if_neg (by omega)]

/-- Witness for `seat_status_table`: the out-of-range clause evaluated at 9. -/
theorem seat_status_table_witness :
    parse_seat_status_raw 9 = { heatVentType := 0, heatVentLevel := 1 } :=
  seat_status_table.2.2.2.2.2.2.2.2.2 9 (Or.inr (by decide))

/-- The Genesis level mapping depends only on the multiset of parsed levels:
`sorted` of permutation-equal lists of integers is the same list. -/
theorem parse_supported_levels_core_perm {l₁ l₂ : List Int} (hp : l₁.Perm l₂) :
    parse_supported_levels_core l₁ = parse_supported_levels_core l₂ := by
  have hs : List.insertionSort (· ≤ ·) l₁ = List.insertionSort (· ≤ ·) l₂ :=
    List.eq_of_perm_of_sorted
      (((List.perm_insertionSort (· ≤ ·) l₁).trans hp).trans
        (List.perm_insertionSort (· ≤ ·) l₂).symm)
      (List.sorted_insertionSort (· ≤ ·) l₁) (List.sorted_insertionSort (· ≤ ·) l₂)
  unfold parse_supported_levels_core
  rw [hs]

/-- C7 counterexample: the claim says the Hyundai per-seat level encoding is
derived by dynamically parsing the vendor `supportedLevels` string.  For the
vehicle-reported string "0,1,2,3,4,5,6" the dynamic derivation (as the
Genesis client performs it) assigns wire value 6 to HeatHigh, but
`_seat_settings_hyundai` — which takes no `supportedLevels` input at all —
returns the fixed value 3 for HeatHigh. -/
theorem hyundai_levels_not_dynamic :
    parse_supported_levels "0,1,2,3,4,5,6" =
      some [(0, 0), (1, 1), (2, 2), (3, 3), (4, 4), (5, 5), (6, 6)] ∧
    seat_settings_hyundai (some .HeatHigh) = 3 ∧ (3 : Int) ≠ 6 := by
  refine ⟨by decide, rfl, by decide⟩

/-- C7 amended: only the Genesis client derives the per-seat encoding
dynamically from `supportedLevels` (parse, sort ascending, lowest = off,
next three = cool low/med/high, next three = heat low/med/high), and for any
two `supportedLevels` strings whose parsed entries are the same multiset
with at least 7 entries the derived assignment is identical; the Hyundai
client instead uses the fixed hard-coded table off→0, heat low/med/high→
1/2/3, cool low/med/high→6/7/8, independent of any `supportedLevels`. -/
theorem supported_levels_stable_and_hyundai_fixed :
    (∀ (s₁ s₂ : String) (l₁ l₂ : List Int),
      parseLevelsItems s₁ = some l₁ → parseLevelsItems s₂ = some l₂ →
      l₁.Perm l₂ → 7 ≤ l₁.length →
      parse_supported_levels s₁ = parse_supported_levels s₂) ∧
    seat_settings_hyundai none = 0 ∧
    seat_settings_hyundai (some .NONE) = 0 ∧
    seat_settings_hyundai (some .HeatLow) = 1 ∧
    seat_settings_hyundai (some .HeatMedium) = 2 ∧
    seat_settings_hyundai (some .HeatHigh) = 3 ∧
    seat_settings_hyundai (some .CoolLow) = 6 ∧
    seat_settings_hyundai (some .CoolMedium) = 7 ∧
    seat_settings_hyundai (some .CoolHigh) = 8 := by
  refine ⟨?_, rfl, rfl, rfl, rfl, rfl, rfl, rfl, rfl⟩
  intro s₁ s₂ l₁ l₂ h₁ h₂ hp hlen
  have hne₁ : s₁ ≠ "" := by
    intro he
    rw [he] at h₁
    have : parseLevelsItems "" = some [] := rfl
    rw [this] at h₁
    injection h₁ with h₁
    rw [← h₁] at hlen
    simp at hlen
  have hne₂ : s₂ ≠ "" := by
    intro he
    rw [he] at h₂
    have : parseLevelsItems "" = some [] := rfl
    rw [this] at h₂
    injection h₂ with h₂
    have : l₂.length = 0 := by rw [← h₂]; rfl
    have := hp.length_eq
    omega
  unfold parse_supported_levels
  rw [if_neg hne₁, if_neg hne₂, h₁, h₂, Option.map_some', Option.map_some',
    parse_supported_levels_core_perm hp]

/-- Witness for `supported_levels_stable_and_hyundai_fixed`: the vendor
string "2,6,7,8,3,4,5" and its reversal parse to the same mapping. -/
theorem supported_levels_stable_witness :
    parse_supported_levels "2,6,7,8,3,4,5" = parse_supported_levels "5,4,3,8,7,6,2" :=
  supported_levels_stable_and_hyundai_fixed.1
    "2,6,7,8,3,4,5" "5,4,3,8,7,6,2"
    [2, 6, 7, 8, 3, 4, 5] [5, 4, 3, 8, 7, 6, 2]
    rfl rfl (by decide) (by decide)

/-- C5: when the wait loop of a refresh cycle exits normally and the status
fetch raises a `ClientError` (the transient transport/API failure class),
the refresh returns the entire previous snapshot unchanged if one exists,
and propagates the fetch error if no previous snapshot exists. -/
theorem refresh_stale_snapshot_fallback
    (prev : Option VData) (lastName : Option String)
    (checks : List (Except ApiErr Bool)) (e : ApiErr) (la : Option LastAction)
    (hwait : coordinator_wait lastName checks = .proceed)
    (he : e.isClientError = true) :
    (∀ d, prev = some d →
      coordinator_refresh prev lastName checks (.error e) la = some (.ok d)) ∧
    (prev = none →
      coordinator_refresh prev lastName checks (.error e) la = some (.error e)) := by
  unfold coordinator_refresh
  rw [hwait]
  constructor
  · intro d hd
    rw [hd]
    simp [he]
  · intro hd
    rw [hd]
    simp [he]

/-- Witness for `refresh_stale_snapshot_fallback`: with a previous snapshot
present, a failing fetch returns it; with none, the error propagates. -/
theorem refresh_stale_snapshot_fallback_witness :
    coordinator_refresh (some { rest := "snapshotS0" }) none []
        (.error (.client "transient")) none = some (.ok { rest := "snapshotS0" }) ∧
    coordinator_refresh none none []
        (.error (.client "transient")) none = some (.error (.client "transient")) :=
  ⟨(refresh_stale_snapshot_fallback (some { rest := "snapshotS0" }) none []
      (.client "transient") none rfl rfl).1 _ rfl,
   (refresh_stale_snapshot_fallback none none []
      (.client "transient") none rfl rfl).2 rfl⟩

/-- C3: when a wrapped request raises an `AuthError`, the request layer
clears the session id, the cached vehicle list and the pending action, and
redoes the failed call exactly once — the overall outcome is literally the
second invocation's outcome, so a second `AuthError` propagates to the
caller with no further retry. -/
theorem auth_error_single_retry {α : Type}
    (f : KiaWorld → Except ApiErr α × KiaWorld) (w w₁ : KiaWorld) (e : ApiErr)
    (h : f w = (.error e, w₁)) (he : e.isAuthError = true) :
    request_with_active_session f w = f { w₁ with st := kiaSessionReset w₁.st } ∧
    (kiaSessionReset w₁.st).session_id = none ∧
    (kiaSessionReset w₁.st).vehicles = none ∧
    (kiaSessionReset w₁.st).last_action = none ∧
    (∀ (e₂ : ApiErr) (w₂ : KiaWorld),
      f { w₁ with st := kiaSessionReset w₁.st } = (.error e₂, w₂) →
      request_with_active_session f w = (.error e₂, w₂)) := by
  have hmain : request_with_active_session f w =
      f { w₁ with st := kiaSessionReset w₁.st } := by
    unfold request_with_active_session
    rw [h]
    simp [he]
  refine ⟨hmain, rfl, rfl, rfl, ?_⟩
  intro e₂ w₂ h₂
  rw [hmain, h₂]

/-- Witness for `auth_error_single_retry`: a call that raises `AuthError`
both times is retried once on the session-reset state and the second error
surfaces. -/
theorem auth_error_single_retry_witness :
    request_with_active_session
        (fun w => ((.error (.auth "rejected") : Except ApiErr Unit), w))
        { st := { username := "u", session_id := some "S",
                  vehicles := some [], last_action := some { name := "lock", xid := "x1" } } } =
      (.error (.auth "rejected"),
        { st := { username := "u", session_id := none,
                  vehicles := none, last_action := none } }) := by
  have h := auth_error_single_retry
    (fun w => ((.error (.auth "rejected") : Except ApiErr Unit), w))
    { st := { username := "u", session_id := some "S",
              vehicles := some [], last_action := some { name := "lock", xid := "x1" } } }
    { st := { username := "u", session_id := some "S",
              vehicles := some [], last_action := some { name := "lock", xid := "x1" } } }
    (.auth "rejected") rfl rfl
  exact h.2.2.2.2 (.auth "rejected")
    { st := { username := "u", session_id := none,
              vehicles := none, last_action := none } } rfl

/-- Helper: the `try` block of the OTP branch on a fully successful run —
the complete-login request carries the provisional sid, the verified
rmtoken and the original credentials, and the returned final sid and the
rmtoken are stored on the session. -/
theorem kia_login_otp_try_success (env : KiaEnv) (p : OtpPayload) (w : KiaWorld)
    (ntField codeField : Option String) (sw vw : KiaWire Unit) (s rm fs : String)
    (hKey : w.st.otp_key ≠ none) (hXid : w.st.otp_xid ≠ none)
    (hChoose : env.chooseDest w.chooseCalls p = .ok ntField)
    (hNt : pyUpper (ntField.getD "EMAIL") = "EMAIL" ∨
      pyUpper (ntField.getD "EMAIL") = "SMS")
    (hSend : env.sendOtp w.sendOtpCalls (pyUpper (ntField.getD "EMAIL")) = .ok sw)
    (hSwCT : sw.contentTypeJson = true) (hSwSC : sw.statusCode = 0)
    (hCode : env.inputCode w.codeCalls (pyUpper (ntField.getD "EMAIL")) = .ok codeField)
    (hCodeNe : pyStripStr (codeField.getD "") ≠ "")
    (hVerify : env.verifyOtp w.verifyOtpCalls (pyStripStr (codeField.getD "")) = .ok vw)
    (hVwCT : vw.contentTypeJson = true) (hVwSC : vw.statusCode = 0)
    (hVwSid : vw.headers.sid = some s) (hSne : s ≠ "")
    (hVwRm : vw.headers.rmtoken = some rm) (hRmne : rm ≠ "")
    (hComplete : env.completeLogin w.completeLoginReqs.length
        { sid := s, rmtoken := rm, userId := w.st.username,
          password := w.st.password, deviceKey := w.st.device_id } = .ok (some fs))
    (hFsne : fs ≠ "") :
    kia_login_otp_try env p w =
      (.ok (), { w with
        st := { w.st with
          notify_type := some (pyUpper (ntField.getD "EMAIL")),
          session_id := some fs,
          refresh_token := some rm },
        chooseCalls := w.chooseCalls + 1,
        sendOtpCalls := w.sendOtpCalls + 1,
        codeCalls := w.codeCalls + 1,
        verifyOtpCalls := w.verifyOtpCalls + 1,
        completeLoginReqs := w.completeLoginReqs ++
          [{ sid := s, rmtoken := rm, userId := w.st.username,
             password := w.st.password, deviceKey := w.st.device_id }] }) := by
  have hguard : ¬(pyUpper (ntField.getD "EMAIL") ≠ "EMAIL" ∧
      pyUpper (ntField.getD "EMAIL") ≠ "SMS") := by
    rcases hNt with h | h <;> simp [h]
  unfold kia_login_otp_try kia_send_otp kia_verify_otp
    kia_complete_login_with_otp kiaEnveloped
  rw [hChoose]
  simp [hguard, hKey, hXid, hSend, hCode, hVerify, hComplete, hSwCT, hSwSC,
    hVwCT, hVwSC, hVwSid, hVwRm, hCodeNe, hSne, hRmne, hFsne]

/-- C1: in the OTP branch of `UsKia.login` the transient fields `otp_key`,
`otp_xid` and `notify_type` are `None` afterwards whatever the outcome; and
when every step succeeds, exactly one complete-login call is made carrying
the provisional sid, the verified rmtoken and the original credentials, the
sid it returns becomes the client's `session_id`, and `refresh_token`
becomes the verified rmtoken. -/
theorem kia_otp_login_two_step (env : KiaEnv) (w : KiaWorld)
    (r : KiaWire (Option OtpPayload)) (p : OtpPayload)
    (hAu : env.authUser w.authUserCalls = .ok r)
    (hCT : r.contentTypeJson = true) (hSC : r.statusCode = 0)
    (hSid : r.headers.sid = none) (hPayload : r.payload = some p) :
    ((kia_login env w).2.st.otp_key = none ∧
     (kia_login env w).2.st.otp_xid = none ∧
     (kia_login env w).2.st.notify_type = none) ∧
    (∀ (ntField : Option String) (sw : KiaWire Unit) (codeField : Option String)
       (vw : KiaWire Unit) (s rm fs : String),
      env.chooseDest w.chooseCalls p = .ok ntField →
      (pyUpper (ntField.getD "EMAIL") = "EMAIL" ∨
        pyUpper (ntField.getD "EMAIL") = "SMS") →
      env.sendOtp w.sendOtpCalls (pyUpper (ntField.getD "EMAIL")) = .ok sw →
      sw.contentTypeJson = true → sw.statusCode = 0 →
      env.inputCode w.codeCalls (pyUpper (ntField.getD "EMAIL")) = .ok codeField →
      pyStripStr (codeField.getD "") ≠ "" →
      env.verifyOtp w.verifyOtpCalls (pyStripStr (codeField.getD "")) = .ok vw →
      vw.contentTypeJson = true → vw.statusCode = 0 →
      vw.headers.sid = some s → s ≠ "" →
      vw.headers.rmtoken = some rm → rm ≠ "" →
      env.completeLogin w.completeLoginReqs.length
          { sid := s, rmtoken := rm, userId := w.st.username,
            password := w.st.password, deviceKey := w.st.device_id } = .ok (some fs) →
      fs ≠ "" →
      (kia_login env w).1 = .ok () ∧
      (kia_login env w).2.st.session_id = some fs ∧
      (kia_login env w).2.st.refresh_token = some rm ∧
      (kia_login env w).2.completeLoginReqs = w.completeLoginReqs ++
        [{ sid := s, rmtoken := rm, userId := w.st.username,
           password := w.st.password, deviceKey := w.st.device_id }]) := by
  have hbranch : kia_login env w =
      kia_login_otp_branch env r p
        { w with authUserCalls := w.authUserCalls + 1,
                 st := { w.st with session_id := none } } := by
    unfold kia_login kiaEnveloped
    rw [hAu]
    simp [hCT, hSC, hSid, hPayload]
  constructor
  · rw [hbranch]
    unfold kia_login_otp_branch
    simp [clearOtpFields]
  · intro ntField sw codeField vw s rm fs hChoose hNt hSend hSwCT hSwSC hCode
      hCodeNe hVerify hVwCT hVwSC hVwSid hSne hVwRm hRmne hComplete hFsne
    rw [hbranch]
    unfold kia_login_otp_branch
    rcases hrm : p.rmTokenExpired with _ | _ <;>
    · simp only [hrm, if_true, if_false, Bool.false_eq_true]
      rw [kia_login_otp_try_success env p _ ntField codeField sw vw s rm fs
        (by simp) (by simp) (by simpa using hChoose) hNt (by simpa using hSend)
        hSwCT hSwSC (by simpa using hCode) hCodeNe (by simpa using hVerify)
        hVwCT hVwSC hVwSid hSne hVwRm hRmne (by simpa using hComplete) hFsne]
      simp [clearOtpFields]

/-- Witness for `kia_otp_login_two_step`: the scripted OTP login scenario
— challenge, email destination, code "482913", provisional sid "PROV",
rmtoken "RM" — ends authenticated with the complete-login result "FINAL"
as session id, "RM" as refresh token, the OTP fields cleared, and exactly
one complete-login request carrying the provisional sid and the original
credentials. -/
theorem kia_otp_login_two_step_witness :
    (kia_login kiaEnvC1 kiaWC1).1 = .ok () ∧
    (kia_login kiaEnvC1 kiaWC1).2.st.session_id = some "FINAL" ∧
    (kia_login kiaEnvC1 kiaWC1).2.st.refresh_token = some "RM" ∧
    (kia_login kiaEnvC1 kiaWC1).2.st.otp_key = none ∧
    (kia_login kiaEnvC1 kiaWC1).2.st.otp_xid = none ∧
    (kia_login kiaEnvC1 kiaWC1).2.st.notify_type = none ∧
    (kia_login kiaEnvC1 kiaWC1).2.completeLoginReqs =
      [{ sid := "PROV", rmtoken := "RM", userId := "user",
         password := "pw", deviceKey := "DEV" }] := by
  have h := kia_otp_login_two_step kiaEnvC1 kiaWC1
    { headers := { xid := some "X1" }, payload := some { otpKey := "OK1" } }
    { otpKey := "OK1" } rfl rfl rfl rfl rfl
  have h2 := h.2 (some "email") { payload := () } (some "482913")
    { payload := (), headers := { sid := some "PROV", rmtoken := some "RM" } }
    "PROV" "RM" "FINAL" rfl (Or.inl (by decide)) rfl rfl rfl rfl (by decide)
    rfl rfl rfl rfl (by decide) rfl (by decide) rfl (by decide)
  exact ⟨h2.1, h2.2.1, h2.2.2.1, h.1.1, h.1.2.1, h.1.2.2,
    by simpa using h2.2.2.2⟩

/-! ### No Kia or Hyundai flow ever constructs a `PINLockedError`
(`PINLockedError` is raised by `UsGenesis.login` alone). -/

theorem noPin_transport (te : TransportErr) (m : String) :
    te.toApiErr ≠ .pinLocked m := by
  cases te
  simp [TransportErr.toApiErr]

theorem noPin_callback (cf : CallbackFail) (m : String) :
    cf.toApiErr ≠ .pinLocked m := by
  cases cf
  simp [CallbackFail.toApiErr]

theorem noPin_kiaEnveloped {π : Type} (res : Except TransportErr (KiaWire π))
    (w : KiaWorld) (e : ApiErr) (heq : (kiaEnveloped res w).1 = .error e)
    (m : String) : e ≠ .pinLocked m := by
  unfold kiaEnveloped at heq
  split at heq
  · rename_i te
    simp only [Except.error.injEq] at heq
    subst heq
    exact noPin_transport te m
  · split_ifs at heq <;>
      simp only [Except.error.injEq, reduceCtorEq] at heq <;>
      (subst heq; simp)

theorem noPin_kia_send_otp (env : KiaEnv) (nt : String) (w : KiaWorld)
    (e : ApiErr) (heq : (kia_send_otp env nt w).1 = .error e)
    (m : String) : e ≠ .pinLocked m := by
  simp only [kia_send_otp] at heq
  split_ifs at heq <;>
    try (simp only [Except.error.injEq] at heq; subst heq; simp)
  split at heq
  · rename_i hE
    simp only [Except.error.injEq] at heq
    subst heq
    exact noPin_kiaEnveloped _ _ _ (by rw [hE]) m
  · simp at heq

theorem noPin_kia_verify_otp (env : KiaEnv) (code : String) (w : KiaWorld)
    (e : ApiErr) (heq : (kia_verify_otp env code w).1 = .error e)
    (m : String) : e ≠ .pinLocked m := by
  simp only [kia_verify_otp] at heq
  split_ifs at heq <;>
    try (simp only [Except.error.injEq] at heq; subst heq; simp)
  split at heq
  · rename_i hE
    simp only [Except.error.injEq] at heq
    subst heq
    exact noPin_kiaEnveloped _ _ _ (by rw [hE]) m
  · split_ifs at heq <;>
      simp only [Except.error.injEq, reduceCtorEq] at heq <;>
      (subst heq; simp)

theorem noPin_kia_complete_login (env : KiaEnv) (sid rm : String) (w : KiaWorld)
    (e : ApiErr) (heq : (kia_complete_login_with_otp env sid rm w).1 = .error e)
    (m : String) : e ≠ .pinLocked m := by
  simp only [kia_complete_login_with_otp] at heq
  split at heq
  · rename_i te _
    simp only [Except.error.injEq] at heq
    subst heq
    exact noPin_transport te m
  · split_ifs at heq <;>
      simp only [Except.error.injEq, reduceCtorEq] at heq <;>
      (subst heq; simp)

theorem noPin_kia_login_otp_try (env : KiaEnv) (p : OtpPayload) (w : KiaWorld)
    (e : ApiErr) (heq : (kia_login_otp_try env p w).1 = .error e)
    (m : String) : e ≠ .pinLocked m := by
  simp only [kia_login_otp_try] at heq
  split at heq
  · rename_i cf _
    simp only [Except.error.injEq] at heq
    subst heq
    exact noPin_callback cf m
  · split at heq
    · rename_i hS
      simp only [Except.error.injEq] at heq
      subst heq
      exact noPin_kia_send_otp _ _ _ _ (by rw [hS]) m
    · split at heq
      · rename_i cf _
        simp only [Except.error.injEq] at heq
        subst heq
        exact noPin_callback cf m
      · split_ifs at heq <;>
          try (simp only [Except.error.injEq] at heq; subst heq; simp)
        split at heq
        · rename_i hV
          simp only [Except.error.injEq] at heq
          subst heq
          exact noPin_kia_verify_otp _ _ _ _ (by rw [hV]) m
        · split at heq
          · rename_i hC
            simp only [Except.error.injEq] at heq
            subst heq
            exact noPin_kia_complete_login _ _ _ _ _ (by rw [hC]) m
          · simp at heq

theorem noPin_kia_login (env : KiaEnv) (w : KiaWorld)
    (e : ApiErr) (heq : (kia_login env w).1 = .error e)
    (m : String) : e ≠ .pinLocked m := by
  simp only [kia_login] at heq
  split at heq
  · rename_i hE
    simp only [Except.error.injEq] at heq
    subst heq
    exact noPin_kiaEnveloped _ _ _ (by rw [hE]) m
  · split_ifs at heq
    split at heq
    · simp only [kia_login_otp_branch] at heq
      exact noPin_kia_login_otp_try _ _ _ _ heq m
    · simp only [Except.error.injEq] at heq
      subst heq
      simp

theorem noPin_kiaAuthedRequest {π : Type} (env : KiaEnv)
    (fetch : KiaWorld → Except TransportErr (KiaWire π) × KiaWorld)
    (w : KiaWorld) (e : ApiErr)
    (heq : (kiaAuthedRequest env fetch w).1 = .error e)
    (m : String) : e ≠ .pinLocked m := by
  simp only [kiaAuthedRequest] at heq
  split at heq
  · rename_i hL
    simp only [Except.error.injEq] at heq
    subst heq
    split_ifs at hL
    · exact noPin_kia_login _ _ _ (by rw [hL]) m
    · simp at hL
  · exact noPin_kiaEnveloped _ _ _ heq m

theorem noPin_request_with_active_session {α : Type}
    (f : KiaWorld → Except ApiErr α × KiaWorld)
    (hf : ∀ (w : KiaWorld) (e : ApiErr), (f w).1 = .error e →
      ∀ m, e ≠ .pinLocked m)
    (w : KiaWorld) (e : ApiErr)
    (heq : (request_with_active_session f w).1 = .error e)
    (m : String) : e ≠ .pinLocked m := by
  simp only [request_with_active_session] at heq
  split at heq
  · simp at heq
  · rename_i e₁ w₁ h₁
    split_ifs at heq
    · exact hf _ _ heq m
    · simp only [Except.error.injEq] at heq
      subst heq
      exact hf _ _ (by rw [h₁]) m

theorem noPin_kia_get_vehicles (env : KiaEnv) (w : KiaWorld) (e : ApiErr)
    (heq : (kia_get_vehicles env w).1 = .error e) (m : String) :
    e ≠ .pinLocked m := by
  refine noPin_request_with_active_session _ ?_ w e heq m
  intro w' e' h' m'
  simp only [kia_get_vehicles_inner] at h'
  split at h'
  · rename_i hA
    simp only [Except.error.injEq] at h'
    subst h'
    exact noPin_kiaAuthedRequest _ _ _ _ (by rw [hA]) m'
  · simp at h'

theorem noPin_kia_find_vehicle_key (env : KiaEnv) (vid : String) (w : KiaWorld)
    (e : ApiErr) (heq : (kia_find_vehicle_key env vid w).1 = .error e)
    (m : String) : e ≠ .pinLocked m := by
  simp only [kia_find_vehicle_key] at heq
  split at heq
  · rename_i hG
    simp only [Except.error.injEq] at heq
    subst heq
    split_ifs at hG
    · exact noPin_kia_get_vehicles _ _ _ (by rw [hG]) m
    · simp at hG
  · split at heq
    · simp only [Except.error.injEq] at heq
      subst heq
      simp
    · split at heq
      · simp at heq
      · simp only [Except.error.injEq] at heq
        subst heq
        simp

theorem noPin_kia_check (env : KiaEnv) (vid : String) (w : KiaWorld)
    (e : ApiErr) (heq : (kia_check_last_action_finished env vid w).1 = .error e)
    (m : String) : e ≠ .pinLocked m := by
  refine noPin_request_with_active_session _ ?_ w e heq m
  intro w' e' h' m'
  simp only [kia_check_last_action_finished_inner] at h'
  split at h'
  · rename_i hF
    simp only [Except.error.injEq] at h'
    subst h'
    exact noPin_kia_find_vehicle_key _ _ _ _ (by rw [hF]) m'
  · split at h'
    · simp at h'
    · split at h'
      · rename_i hA
        simp only [Except.error.injEq] at h'
        subst h'
        exact noPin_kiaAuthedRequest _ _ _ _ (by rw [hA]) m'
      · split_ifs at h'

theorem noPin_kia_lock (env : KiaEnv) (vid : String) (w : KiaWorld)
    (e : ApiErr) (heq : (kia_lock env vid w).1 = .error e) (m : String) :
    e ≠ .pinLocked m := by
  refine noPin_request_with_active_session _ ?_ w e heq m
  intro w' e' h' m'
  simp only [kia_lock_inner] at h'
  split at h'
  · rename_i hC
    simp only [Except.error.injEq] at h'
    subst h'
    exact noPin_kia_check _ _ _ _ (by rw [hC]) m'
  · simp only [Except.error.injEq] at h'
    subst h'
    simp
  · split at h'
    · rename_i hF
      simp only [Except.error.injEq] at h'
      subst h'
      exact noPin_kia_find_vehicle_key _ _ _ _ (by rw [hF]) m'
    · split at h'
      · rename_i hA
        simp only [Except.error.injEq] at h'
        subst h'
        exact noPin_kiaAuthedRequest _ _ _ _ (by rw [hA]) m'
      · split at h'
        · simp only [Except.error.injEq] at h'
          subst h'
          simp
        · simp at h'

/-- The only error classes that a BlueLink (Hyundai/Genesis) request
envelope can raise: never `PINLockedError` and never
`ActionAlreadyInProgressError`. -/
def benign (e : ApiErr) : Prop :=
  ∀ m, e ≠ .pinLocked m ∧ e ≠ .actionInProgress m

theorem benign_transport (te : TransportErr) : benign te.toApiErr := by
  cases te
  intro m
  simp [TransportErr.toApiErr]

theorem benign_blEnveloped {π : Type} (res : Except TransportErr (BlWire π))
    (e : ApiErr) (heq : blEnveloped res = .error e) : benign e := by
  unfold blEnveloped at heq
  split at heq
  · rename_i te
    simp only [Except.error.injEq] at heq
    subst heq
    exact benign_transport te
  · split_ifs at heq
    · simp only [Except.error.injEq] at heq
      subst heq
      intro m
      simp
    · split at heq
      · split_ifs at heq <;>
          simp only [Except.error.injEq, reduceCtorEq] at heq <;>
          (subst heq; intro m; simp)
      · simp at heq

theorem benign_hyundai_login (env : HyEnv) (w : HyWorld) (e : ApiErr)
    (heq : (hyundai_login env w).1 = .error e) : benign e := by
  simp only [hyundai_login] at heq
  split at heq
  · rename_i hE
    simp only [Except.error.injEq] at heq
    subst heq
    exact benign_blEnveloped _ _ hE
  · split_ifs at heq <;> simp only [Except.error.injEq, reduceCtorEq] at heq
    subst heq
    intro m
    simp

theorem benign_hyundai_get_vehicles (env : HyEnv) (w : HyWorld) (e : ApiErr)
    (heq : (hyundai_get_vehicles env w).1 = .error e) : benign e := by
  simp only [hyundai_get_vehicles] at heq
  split at heq
  · rename_i hL
    simp only [Except.error.injEq] at heq
    subst heq
    split_ifs at hL
    · exact benign_hyundai_login _ _ _ (by rw [hL])
    · simp at hL
  · split at heq
    · rename_i hE
      simp only [Except.error.injEq] at heq
      subst heq
      exact benign_blEnveloped _ _ hE
    · simp at heq

theorem benign_hyundai_find_vehicle (env : HyEnv) (vid : String) (w : HyWorld)
    (e : ApiErr) (heq : (hyundai_find_vehicle env vid w).1 = .error e) :
    benign e := by
  simp only [hyundai_find_vehicle] at heq
  split at heq
  · rename_i hG
    simp only [Except.error.injEq] at heq
    subst heq
    split_ifs at hG
    · exact benign_hyundai_get_vehicles _ _ _ (by rw [hG])
    · simp at hG
  · split at heq
    · simp only [Except.error.injEq] at heq
      subst heq
      intro m
      simp
    · split at heq
      · simp at heq
      · simp only [Except.error.injEq] at heq
        subst heq
        intro m
        simp

theorem benign_hyundai_lock (env : HyEnv) (vid : String) (w : HyWorld)
    (e : ApiErr) (heq : (hyundai_lock env vid w).1 = .error e) : benign e := by
  simp only [hyundai_lock] at heq
  split at heq
  · rename_i hL
    simp only [Except.error.injEq] at heq
    subst heq
    split_ifs at hL
    · exact benign_hyundai_login _ _ _ (by rw [hL])
    · simp at hL
  · split at heq
    · rename_i hF
      simp only [Except.error.injEq] at heq
      subst heq
      exact benign_hyundai_find_vehicle _ _ _ _ (by rw [hF])
    · simp only [hyundaiCmdPost] at heq
      split at heq
      · rename_i hE
        simp only [Except.error.injEq] at heq
        subst heq
        exact benign_blEnveloped _ _ hE
      · simp at heq

/-- Errors of the Genesis flows are never `ActionAlreadyInProgressError`
(the Genesis login can additionally raise `PINLockedError`, so only the
action-progress part of `benign` holds for it). -/
def noActionErr (e : ApiErr) : Prop :=
  ∀ m, e ≠ .actionInProgress m

theorem noAct_genesis_login (env : GenEnv) (w : GenWorld) (e : ApiErr)
    (heq : (genesis_login env w).1 = .error e) : noActionErr e := by
  simp only [genesis_login] at heq
  split at heq
  · rename_i hE
    simp only [Except.error.injEq] at heq
    subst heq
    intro m
    exact ((benign_blEnveloped _ _ hE) m).2
  · split_ifs at heq
    · split at heq
      · split_ifs at heq <;> simp at heq
      · simp at heq
    · simp only [Except.error.injEq] at heq
      subst heq
      intro m
      simp
    · simp only [Except.error.injEq] at heq
      subst heq
      intro m
      simp

theorem noAct_genesis_ensure (env : GenEnv) (w : GenWorld) (e : ApiErr)
    (heq : (genesis_ensure_token_valid env w).1 = .error e) : noActionErr e := by
  simp only [genesis_ensure_token_valid] at heq
  split_ifs at heq
  exact noAct_genesis_login _ _ _ heq

theorem noAct_genesis_get_vehicles (env : GenEnv) (w : GenWorld) (e : ApiErr)
    (heq : (genesis_get_vehicles env w).1 = .error e) : noActionErr e := by
  simp only [genesis_get_vehicles] at heq
  split at heq
  · rename_i hL
    simp only [Except.error.injEq] at heq
    subst heq
    exact noAct_genesis_ensure _ _ _ (by rw [hL])
  · split at heq
    · rename_i hE
      simp only [Except.error.injEq] at heq
      subst heq
      intro m
      exact ((benign_blEnveloped _ _ hE) m).2
    · simp at heq

theorem noAct_genesis_find_vehicle (env : GenEnv) (vid : String) (w : GenWorld)
    (e : ApiErr) (heq : (genesis_find_vehicle env vid w).1 = .error e) :
    noActionErr e := by
  simp only [genesis_find_vehicle] at heq
  split at heq
  · rename_i hG
    simp only [Except.error.injEq] at heq
    subst heq
    split_ifs at hG
    · exact noAct_genesis_get_vehicles _ _ _ (by rw [hG])
    · simp at hG
  · split at heq
    · simp only [Except.error.injEq] at heq
      subst heq
      intro m
      simp
    · split at heq
      · simp at heq
      · simp only [Except.error.injEq] at heq
        subst heq
        intro m
        simp

theorem noAct_genesis_lock (env : GenEnv) (vid : String) (w : GenWorld)
    (e : ApiErr) (heq : (genesis_lock env vid w).1 = .error e) :
    noActionErr e := by
  simp only [genesis_lock] at heq
  split at heq
  · rename_i hL
    simp only [Except.error.injEq] at heq
    subst heq
    exact noAct_genesis_ensure _ _ _ (by rw [hL])
  · split at heq
    · rename_i hF
      simp only [Except.error.injEq] at heq
      subst heq
      exact noAct_genesis_find_vehicle _ _ _ _ (by rw [hF])
    · simp only [genesisCmdPost] at heq
      split at heq
      · rename_i hE
        simp only [Except.error.injEq] at heq
        subst heq
        intro m
        exact ((benign_blEnveloped _ _ hE) m).2
      · simp at heq

/-! ### The BlueLink clients never write `last_action` -/

theorem la_hyundai_login (env : HyEnv) (w : HyWorld) :
    (hyundai_login env w).2.st.last_action = w.st.last_action := by
  simp only [hyundai_login]
  split
  · simp
  · split_ifs <;> simp

theorem la_hyundai_get_vehicles (env : HyEnv) (w : HyWorld) :
    (hyundai_get_vehicles env w).2.st.last_action = w.st.last_action := by
  have hstep : ∀ (p : Except ApiErr Unit × HyWorld),
      (if w.st.access_token = none then hyundai_login env w
        else (.ok (), w)) = p → p.2.st.last_action = w.st.last_action := by
    intro p hp
    split_ifs at hp
    · rw [← hp]
      exact la_hyundai_login env w
    · rw [← hp]
  simp only [hyundai_get_vehicles]
  split
  · rename_i hL
    simpa using hstep _ hL
  · rename_i hL
    have := hstep _ hL
    split <;> simpa using this

theorem la_hyundai_find_vehicle (env : HyEnv) (vid : String) (w : HyWorld) :
    (hyundai_find_vehicle env vid w).2.st.last_action = w.st.last_action := by
  have hstep : ∀ (p : Except ApiErr Unit × HyWorld),
      (if w.st.vehicles = none then hyundai_get_vehicles env w
        else (.ok (), w)) = p → p.2.st.last_action = w.st.last_action := by
    intro p hp
    split_ifs at hp
    · rw [← hp]
      exact la_hyundai_get_vehicles env w
    · rw [← hp]
  simp only [hyundai_find_vehicle]
  split
  · rename_i hL
    simpa using hstep _ hL
  · rename_i hL
    have := hstep _ hL
    split
    · simpa using this
    · split <;> simpa using this

theorem la_hyundaiCmdPost (env : HyEnv) (url : String) (w : HyWorld) :
    (hyundaiCmdPost env url w).2.st.last_action = w.st.last_action := by
  simp only [hyundaiCmdPost]
  split <;> simp

theorem la_hyundai_lock (env : HyEnv) (vid : String) (w : HyWorld) :
    (hyundai_lock env vid w).2.st.last_action = w.st.last_action := by
  have hstep : ∀ (p : Except ApiErr Unit × HyWorld),
      (if w.st.access_token = none then hyundai_login env w
        else (.ok (), w)) = p → p.2.st.last_action = w.st.last_action := by
    intro p hp
    split_ifs at hp
    · rw [← hp]
      exact la_hyundai_login env w
    · rw [← hp]
  simp only [hyundai_lock]
  split
  · rename_i e w₁ hL
    simpa using hstep _ hL
  · rename_i a w₁ hL
    have h1 : w₁.st.last_action = w.st.last_action := by simpa using hstep _ hL
    split
    · rename_i e₂ w₂ hF
      have h2 := la_hyundai_find_vehicle env vid w₁
      rw [hF] at h2
      simpa using h2.trans h1
    · rename_i v w₂ hF
      have h2 : w₂.st.last_action = w₁.st.last_action := by
        have := la_hyundai_find_vehicle env vid w₁
        rw [hF] at this
        simpa using this
      exact (la_hyundaiCmdPost env _ w₂).trans (h2.trans h1)

theorem la_genesis_login (env : GenEnv) (w : GenWorld) :
    (genesis_login env w).2.st.last_action = w.st.last_action := by
  simp only [genesis_login]
  split
  · simp
  · split_ifs
    · split
      · split_ifs <;> simp
      · simp
    · simp
    · simp

theorem la_genesis_ensure (env : GenEnv) (w : GenWorld) :
    (genesis_ensure_token_valid env w).2.st.last_action = w.st.last_action := by
  simp only [genesis_ensure_token_valid]
  split_ifs
  · simp
  · simpa using la_genesis_login env _

theorem la_genesis_get_vehicles (env : GenEnv) (w : GenWorld) :
    (genesis_get_vehicles env w).2.st.last_action = w.st.last_action := by
  simp only [genesis_get_vehicles]
  split
  · rename_i hL
    have := la_genesis_ensure env w
    rw [hL] at this
    simpa using this
  · rename_i hL
    have := la_genesis_ensure env w
    rw [hL] at this
    split <;> simpa using this

theorem la_genesis_find_vehicle (env : GenEnv) (vid : String) (w : GenWorld) :
    (genesis_find_vehicle env vid w).2.st.last_action = w.st.last_action := by
  have hstep : ∀ (p : Except ApiErr Unit × GenWorld),
      (if w.st.vehicles = none then genesis_get_vehicles env w
        else (.ok (), w)) = p → p.2.st.last_action = w.st.last_action := by
    intro p hp
    split_ifs at hp
    · rw [← hp]
      exact la_genesis_get_vehicles env w
    · rw [← hp]
  simp only [genesis_find_vehicle]
  split
  · rename_i hL
    simpa using hstep _ hL
  · rename_i hL
    have := hstep _ hL
    split
    · simpa using this
    · split <;> simpa using this

theorem la_genesisCmdPost (env : GenEnv) (url : String) (w : GenWorld) :
    (genesisCmdPost env url w).2.st.last_action = w.st.last_action := by
  simp only [genesisCmdPost]
  split <;> simp

theorem la_genesis_lock (env : GenEnv) (vid : String) (w : GenWorld) :
    (genesis_lock env vid w).2.st.last_action = w.st.last_action := by
  simp only [genesis_lock]
  split
  · rename_i e w₁ hL
    have := la_genesis_ensure env w
    rw [hL] at this
    simpa using this
  · rename_i a w₁ hL
    have h1 : w₁.st.last_action = w.st.last_action := by
      have := la_genesis_ensure env w
      rw [hL] at this
      simpa using this
    split
    · rename_i e₂ w₂ hF
      have h2 := la_genesis_find_vehicle env vid w₁
      rw [hF] at h2
      simpa using h2.trans h1
    · rename_i v w₂ hF
      have h2 : w₂.st.last_action = w₁.st.last_action := by
        have := la_genesis_find_vehicle env vid w₁
        rw [hF] at this
        simpa using this
      exact (la_genesisCmdPost env _ w₂).trans (h2.trans h1)


/-- Helper: the Genesis login posts exactly one vendor login request and
never dispatches a vehicle command. -/
theorem genesis_login_world (env : GenEnv) (w : GenWorld) :
    (genesis_login env w).2.cmdUrls = w.cmdUrls ∧
    (genesis_login env w).2.loginCalls = w.loginCalls + 1 := by
  simp only [genesis_login]
  split
  · simp
  · split_ifs
    · split
      · split_ifs <;> simp
      · simp
    · simp
    · simp

/-- Helper: `_ensure_token_valid` never dispatches a vehicle command. -/
theorem genesis_ensure_world (env : GenEnv) (w : GenWorld) :
    (genesis_ensure_token_valid env w).2.cmdUrls = w.cmdUrls := by
  simp only [genesis_ensure_token_valid]
  split_ifs
  · simp
  · simpa using (genesis_login_world env _).1

/-- C4: a `PINLockedError` — raised only by the Genesis login — surfaces to
the caller with no automatic retry anywhere: (1) when the token is invalid,
`_ensure_token_valid` performs exactly the single login and returns its
outcome — error included — unchanged; (2) a command such as `lock` returns
an `_ensure_token_valid` error as is, having dispatched no vehicle command;
(3) `PINLockedError` is a subclass of `AuthError`, which the Kia request
layer auto-retries — yet (4,5) no Kia or Hyundai flow can ever produce a
`PINLockedError`, so the retrying layer never sees one. -/
theorem pin_locked_never_retried :
    (∀ (env : GenEnv) (w : GenWorld),
      genesis_is_token_valid (env.now w.clockReads) w.st = false →
      genesis_ensure_token_valid env w =
        genesis_login env { w with
          clockReads := w.clockReads + 1,
          st := { w.st with access_token := none, token_expires_at := none } }) ∧
    (∀ (env : GenEnv) (vid : String) (w : GenWorld) (e : ApiErr) (w₁ : GenWorld),
      genesis_ensure_token_valid env w = (.error e, w₁) →
      genesis_lock env vid w = (.error e, w₁) ∧ w₁.cmdUrls = w.cmdUrls) ∧
    (∀ m, (ApiErr.pinLocked m).isAuthError = true) ∧
    (∀ (env : KiaEnv) (vid : String) (w : KiaWorld) (m : String),
      (kia_lock env vid w).1 ≠ .error (.pinLocked m)) ∧
    (∀ (env : HyEnv) (vid : String) (w : HyWorld) (m : String),
      (hyundai_lock env vid w).1 ≠ .error (.pinLocked m)) := by
  refine ⟨?_, ?_, fun m => rfl, ?_, ?_⟩
  · intro env w h
    simp only [genesis_ensure_token_valid]
    split_ifs with hv
    · rw [show ({ w with clockReads := w.clockReads + 1 } : GenWorld).st = w.st
          from rfl] at hv
      rw [h] at hv
      exact absurd hv (by simp)
    · rfl
  · intro env vid w e w₁ hEnsure
    constructor
    · simp only [genesis_lock]
      rw [hEnsure]
    · have := genesis_ensure_world env w
      rw [hEnsure] at this
      exact this
  · intro env vid w m hc
    exact noPin_kia_lock env vid w _ hc m rfl
  · intro env vid w m hc
    exact ((benign_hyundai_lock env vid w _ hc) m).1 rfl

/-- Witness for `pin_locked_never_retried`: a Genesis client with no token
whose vendor reports a PIN lockout — `lock` surfaces the `PINLockedError`
after the single login attempt, with no command dispatched. -/
theorem pin_locked_never_retried_witness :
    genesis_lock genEnvPin "V1" genWPin =
      (.error (.pinLocked "Genesis PIN locked: PIN LOCKED"),
        { st := { username := "u" }, clockReads := 1, loginCalls := 1 }) ∧
    ({ st := { username := "u" }, clockReads := 1, loginCalls := 1 } :
      GenWorld).cmdUrls = genWPin.cmdUrls :=
  pin_locked_never_retried.2.1 genEnvPin "V1" genWPin
    (.pinLocked "Genesis PIN locked: PIN LOCKED")
    { st := { username := "u" }, clockReads := 1, loginCalls := 1 }
    rfl

/-- C2 counterexample: the Hyundai client has no action tracking — two
back-to-back `lock` commands on the same vehicle both succeed (the claim
requires `ActionInProgressError` on the second), and no pending action is
ever recorded. -/
theorem hyundai_no_action_tracking_cex :
    (hyundai_lock hyEnvOk "V1" hyWLock).1 = .ok () ∧
    (hyundai_lock hyEnvOk "V1" (hyundai_lock hyEnvOk "V1" hyWLock).2).1 = .ok () ∧
    (hyundai_lock hyEnvOk "V1"
      (hyundai_lock hyEnvOk "V1" hyWLock).2).2.st.last_action = none :=
  ⟨rfl, rfl, rfl⟩

/-- C2 amended: only the Kia client enforces the pending-action protocol.
For Kia: a `lock` issued while the pending action's status poll reports it
unfinished raises `ActionAlreadyInProgressError` and records nothing, and
once the poll reports every status value zero the command proceeds and
records the response `Xid` as the new pending action.  The Hyundai and
Genesis clients do not track actions: their `check_last_action_finished`
are placeholders returning `True` without touching state, and their `lock`
never raises `ActionAlreadyInProgressError` nor writes `last_action`. -/
theorem action_tracking_kia_only :
    (∀ (env : KiaEnv) (vid sid : String) (vs : List KiaVehicle) (v : KiaVehicle)
       (la : LastAction) (w : KiaWorld) (gw : KiaWire (List Int)),
      w.st.session_id = some sid → w.st.vehicles = some vs →
      vs.find? (fun y => y.vehicleIdentifier = vid) = some v →
      w.st.last_action = some la →
      env.gts w.gtsCalls la.xid = .ok gw →
      gw.contentTypeJson = true → gw.statusCode = 0 →
      gw.payload.all (fun n => n = 0) = false →
      kia_lock env vid w =
        (.error (.actionInProgress (la.name ++ " still pending")),
          { w with gtsCalls := w.gtsCalls + 1 })) ∧
    (∀ (env : KiaEnv) (vid sid x : String) (vs : List KiaVehicle)
       (v : KiaVehicle) (la : LastAction) (w : KiaWorld)
       (gw : KiaWire (List Int)) (cw : KiaWire Unit),
      w.st.session_id = some sid → w.st.vehicles = some vs →
      vs.find? (fun y => y.vehicleIdentifier = vid) = some v →
      w.st.last_action = some la →
      env.gts w.gtsCalls la.xid = .ok gw →
      gw.contentTypeJson = true → gw.statusCode = 0 →
      gw.payload.all (fun n => n = 0) = true →
      env.cmd w.cmdUrls.length "rems/door/lock" = .ok cw →
      cw.contentTypeJson = true → cw.statusCode = 0 →
      cw.headers.capXid = some x →
      kia_lock env vid w =
        (.ok (), { w with
          st := { w.st with last_action := some { name := "lock", xid := x } },
          gtsCalls := w.gtsCalls + 1,
          cmdUrls := w.cmdUrls ++ ["rems/door/lock"] })) ∧
    (∀ (env : HyEnv) (vid : String) (w : HyWorld),
      hyundai_check_last_action_finished env vid w = (.ok true, w)) ∧
    (∀ (env : GenEnv) (vid : String) (w : GenWorld),
      genesis_check_last_action_finished env vid w = (.ok true, w)) ∧
    (∀ (env : HyEnv) (vid : String) (w : HyWorld),
      (hyundai_lock env vid w).2.st.last_action = w.st.last_action ∧
      ∀ msg, (hyundai_lock env vid w).1 ≠ .error (.actionInProgress msg)) ∧
    (∀ (env : GenEnv) (vid : String) (w : GenWorld),
      (genesis_lock env vid w).2.st.last_action = w.st.last_action ∧
      ∀ msg, (genesis_lock env vid w).1 ≠ .error (.actionInProgress msg)) := by
  refine ⟨?_, ?_, fun _ _ _ => rfl, fun _ _ _ => rfl, ?_, ?_⟩
  · intro env vid sid vs v la w gw hsid hveh hfound hla hgts hct hsc hbusy
    have hfind : kia_find_vehicle_key env vid w = (.ok v.vehicleKey, w) := by
      simp [kia_find_vehicle_key, hveh, hfound]
    have hauth : (if w.st.session_id = none then kia_login env w
        else (.ok (), w)) = (.ok (), w) := by
      simp [hsid]
    have hgtsreq : kiaAuthedRequest env (gtsFetch env la.xid) w =
        (.ok gw, { w with gtsCalls := w.gtsCalls + 1 }) := by
      simp [kiaAuthedRequest, hauth, gtsFetch, kiaEnveloped, hgts, hct, hsc]
    have hchkInner : kia_check_last_action_finished_inner env vid w =
        (.ok false, { w with gtsCalls := w.gtsCalls + 1 }) := by
      simp [kia_check_last_action_finished_inner, hfind, hla, hgtsreq, hbusy]
    have hchk : kia_check_last_action_finished env vid w =
        (.ok false, { w with gtsCalls := w.gtsCalls + 1 }) := by
      simp [kia_check_last_action_finished, request_with_active_session, hchkInner]
    have hlockInner : kia_lock_inner env vid w =
        (.error (.actionInProgress (la.name ++ " still pending")),
          { w with gtsCalls := w.gtsCalls + 1 }) := by
      simp [kia_lock_inner, hchk, hla]
    simp [kia_lock, request_with_active_session, hlockInner, ApiErr.isAuthError]
  · intro env vid sid x vs v la w gw cw hsid hveh hfound hla hgts hct hsc
      hdone hcmd hcct hcsc hxid
    have hfind : kia_find_vehicle_key env vid w = (.ok v.vehicleKey, w) := by
      simp [kia_find_vehicle_key, hveh, hfound]
    have hauth : (if w.st.session_id = none then kia_login env w
        else (.ok (), w)) = (.ok (), w) := by
      simp [hsid]
    have hgtsreq : kiaAuthedRequest env (gtsFetch env la.xid) w =
        (.ok gw, { w with gtsCalls := w.gtsCalls + 1 }) := by
      simp [kiaAuthedRequest, hauth, gtsFetch, kiaEnveloped, hgts, hct, hsc]
    have hchkInner : kia_check_last_action_finished_inner env vid w =
        (.ok true, { w with
          gtsCalls := w.gtsCalls + 1,
          st := { w.st with last_action := none } }) := by
      simp [kia_check_last_action_finished_inner, hfind, hla, hgtsreq, hdone]
    have hchk : kia_check_last_action_finished env vid w =
        (.ok true, { w with
          gtsCalls := w.gtsCalls + 1,
          st := { w.st with last_action := none } }) := by
      simp [kia_check_last_action_finished, request_with_active_session, hchkInner]
    have hfind₂ : kia_find_vehicle_key env vid
        { w with
          gtsCalls := w.gtsCalls + 1,
          st := { w.st with last_action := none } } =
        (.ok v.vehicleKey, { w with
          gtsCalls := w.gtsCalls + 1,
          st := { w.st with last_action := none } }) := by
      simp [kia_find_vehicle_key, hveh, hfound]
    have hcmdreq : kiaAuthedRequest env (cmdFetch env "rems/door/lock")
        { w with
          gtsCalls := w.gtsCalls + 1,
          st := { w.st with last_action := none } } =
        (.ok cw, { w with
          gtsCalls := w.gtsCalls + 1,
          st := { w.st with last_action := none },
          cmdUrls := w.cmdUrls ++ ["rems/door/lock"] }) := by
      simp [kiaAuthedRequest, hsid, cmdFetch, kiaEnveloped, hcmd, hcct, hcsc]
    have hlockInner : kia_lock_inner env vid w =
        (.ok (), { w with
          st := { w.st with last_action := some { name := "lock", xid := x } },
          gtsCalls := w.gtsCalls + 1,
          cmdUrls := w.cmdUrls ++ ["rems/door/lock"] }) := by
      simp [kia_lock_inner, hchk, hfind₂, hcmdreq, hxid]
    simp [kia_lock, request_with_active_session, hlockInner]
  · intro env vid w
    refine ⟨la_hyundai_lock env vid w, ?_⟩
    intro msg hc
    exact ((benign_hyundai_lock env vid w _ hc) msg).2 rfl
  · intro env vid w
    refine ⟨la_genesis_lock env vid w, ?_⟩
    intro msg hc
    exact (noAct_genesis_lock env vid w _ hc) msg rfl

/-- Witness for `action_tracking_kia_only`: in the scripted busy scenario
the second Kia command is refused; in the scripted terminal scenario it
succeeds and records the new tracking id "X9". -/
theorem action_tracking_kia_only_witness :
    kia_lock kiaEnvBusy "V1" kiaWBusy =
      (.error (.actionInProgress "start_climate still pending"),
        { kiaWBusy with gtsCalls := 1 }) ∧
    kia_lock kiaEnvDone "V1" kiaWBusy =
      (.ok (), { kiaWBusy with
        st := { kiaWBusy.st with
          last_action := some { name := "lock", xid := "X9" } },
        gtsCalls := 1,
        cmdUrls := ["rems/door/lock"] }) :=
  ⟨action_tracking_kia_only.1 kiaEnvBusy "V1" "S"
      [{ vehicleIdentifier := "V1", vehicleKey := "K1" }]
      { vehicleIdentifier := "V1", vehicleKey := "K1" }
      { name := "start_climate", xid := "XID0" } kiaWBusy { payload := [1] }
      rfl rfl (by decide) rfl rfl rfl rfl (by decide),
   action_tracking_kia_only.2.1 kiaEnvDone "V1" "S" "X9"
      [{ vehicleIdentifier := "V1", vehicleKey := "K1" }]
      { vehicleIdentifier := "V1", vehicleKey := "K1" }
      { name := "start_climate", xid := "XID0" } kiaWBusy { payload := [0, 0] }
      { payload := (), headers := { capXid := some "X9" } }
      rfl rfl (by decide) rfl rfl rfl rfl (by decide) rfl rfl rfl rfl⟩

/-- C8 counterexample: the Hyundai client performs no proactive token
refresh — holding any token (its state has no expiry timestamp at all), it
sends the authenticated request with that very token and zero logins; the
Genesis client in the analogous situation, with its token expiring within
the 300-second buffer, logs in first. -/
theorem hyundai_no_expiry_tracking_cex :
    (hyundai_get_vehicles hyEnvEnroll hyWStale).1 = .ok () ∧
    (hyundai_get_vehicles hyEnvEnroll hyWStale).2.loginCalls = 0 ∧
    (hyundai_get_vehicles hyEnvEnroll hyWStale).2.usedTokens = ["staletok"] ∧
    (genesis_get_vehicles genEnvFresh genWStale).2.loginCalls = 1 :=
  ⟨rfl, rfl, rfl, rfl⟩

/-- C8 amended: only the Genesis client tracks token validity with an
expiry timestamp plus the 300-second refresh buffer: its token counts as
invalid from buffer-start, `_ensure_token_valid` (run before every
authenticated Genesis operation) logs in exactly when the token is invalid
and dispatches with the refreshed token; the Hyundai client keeps no
expiry and logs in only when it holds no token at all, dispatching with
whatever token it holds. -/
theorem token_buffer_genesis_only :
    (∀ (now : Int) (st : GenState) (t : String) (exp : Int),
      st.access_token = some t → st.token_expires_at = some exp →
      (genesis_is_token_valid now st = true ↔
        now < exp - TOKEN_REFRESH_BUFFER_SECONDS)) ∧
    (∀ (env : GenEnv) (w : GenWorld),
      genesis_is_token_valid (env.now w.clockReads) w.st = false →
      genesis_ensure_token_valid env w =
        genesis_login env { w with
          clockReads := w.clockReads + 1,
          st := { w.st with access_token := none, token_expires_at := none } }) ∧
    (∀ (env : GenEnv) (w : GenWorld),
      genesis_is_token_valid (env.now w.clockReads) w.st = true →
      genesis_ensure_token_valid env w =
        (.ok (), { w with clockReads := w.clockReads + 1 })) ∧
    (∀ (env : GenEnv) (w : GenWorld) (t : String) (ew : BlWire (List BlVehicle)),
      genesis_is_token_valid (env.now w.clockReads) w.st = true →
      w.st.access_token = some t →
      env.enroll w.enrollCalls = .ok ew →
      ew.contentTypeJson = true → ew.errorCode = none →
      genesis_get_vehicles env w =
        (.ok (), { w with
          clockReads := w.clockReads + 1,
          enrollCalls := w.enrollCalls + 1,
          usedTokens := w.usedTokens ++ [t],
          st := { w.st with vehicles := some (ew.payload.filter
            (fun v => v.enrollmentStatus ≠ "CANCELLED")) } })) ∧
    (∀ (env : GenEnv) (w : GenWorld) (lw : BlWire BlLoginPayload)
       (ew : BlWire (List BlVehicle)) (t₂ : String),
      genesis_is_token_valid (env.now w.clockReads) w.st = false →
      env.loginPost w.loginCalls = .ok lw →
      lw.contentTypeJson = true → lw.errorCode = none →
      lw.payload.access_token = some t₂ → t₂ ≠ "" →
      lw.payload.expires_in = none →
      env.enroll w.enrollCalls = .ok ew →
      ew.contentTypeJson = true → ew.errorCode = none →
      genesis_get_vehicles env w =
        (.ok (), { w with
          clockReads := w.clockReads + 1,
          loginCalls := w.loginCalls + 1,
          enrollCalls := w.enrollCalls + 1,
          usedTokens := w.usedTokens ++ [t₂],
          st := { w.st with
            access_token := some t₂,
            refresh_token := lw.payload.refresh_token,
            token_expires_at := none,
            vehicles := some (ew.payload.filter
              (fun v => v.enrollmentStatus ≠ "CANCELLED")) } })) ∧
    (∀ (env : HyEnv) (w : HyWorld) (t : String) (ew : BlWire (List BlVehicle)),
      w.st.access_token = some t →
      env.enroll w.enrollCalls = .ok ew →
      ew.contentTypeJson = true → ew.errorCode = none →
      hyundai_get_vehicles env w =
        (.ok (), { w with
          enrollCalls := w.enrollCalls + 1,
          usedTokens := w.usedTokens ++ [t],
          st := { w.st with vehicles := some (ew.payload.filter
            (fun v => v.enrollmentStatus ≠ "CANCELLED")) } })) := by
  refine ⟨?_, ?_, ?_, ?_, ?_, ?_⟩
  · intro now st t exp h1 h2
    simp [genesis_is_token_valid, h1, h2]
  · intro env w h
    simp only [genesis_ensure_token_valid]
    split_ifs with hv
    · rw [show ({ w with clockReads := w.clockReads + 1 } : GenWorld).st = w.st
          from rfl] at hv
      rw [h] at hv
      exact absurd hv (by simp)
    · rfl
  · intro env w h
    simp [genesis_ensure_token_valid, h]
  · intro env w t ew hval htok henroll hct hec
    have hens : genesis_ensure_token_valid env w =
        (.ok (), { w with clockReads := w.clockReads + 1 }) := by
      simp [genesis_ensure_token_valid, hval]
    simp [genesis_get_vehicles, hens, blEnveloped, henroll, hct, hec, htok]
  · intro env w lw ew t₂ hinv hlogin hlct hlec htok₂ htne hexp henroll hect heec
    have hens : genesis_ensure_token_valid env w =
        (.ok (), { w with
          clockReads := w.clockReads + 1,
          loginCalls := w.loginCalls + 1,
          st := { w.st with
            access_token := some t₂,
            refresh_token := lw.payload.refresh_token,
            token_expires_at := none } }) := by
      simp only [genesis_ensure_token_valid]
      split_ifs with hv
      · rw [show ({ w with clockReads := w.clockReads + 1 } : GenWorld).st = w.st
            from rfl] at hv
        rw [hinv] at hv
        exact absurd hv (by simp)
      · simp [genesis_login, blEnveloped, hlogin, hlct, hlec, htok₂, htne, hexp]
    simp [genesis_get_vehicles, hens, blEnveloped, henroll, hect, heec, htok₂]
  · intro env w t ew htok henroll hct hec
    simp [hyundai_get_vehicles, htok, blEnveloped, henroll, hct, hec]

/-- Witness for `token_buffer_genesis_only`: the Hyundai client holding
"staletok" fetches the vehicle list with that token and no login. -/
theorem token_buffer_genesis_only_witness :
    hyundai_get_vehicles hyEnvEnroll hyWStale =
      (.ok (), { hyWStale with
        enrollCalls := 1,
        usedTokens := ["staletok"],
        st := { hyWStale.st with
          vehicles := some [{ regid := "V1", evStatus := "N" }] } }) := by
  have h := token_buffer_genesis_only.2.2.2.2.2 hyEnvEnroll hyWStale "staletok"
    { payload := [{ regid := "V1", evStatus := "N" }] } rfl rfl rfl rfl
  simpa using h

/-- C9 counterexample: with a cached vehicle list that does not contain the
requested id, `find_vehicle_key` raises `ValueError` at once — no second
vehicle-list fetch happens (the list-fetch count stays 0), and there is no
`VehicleNotFoundError` class in the code at all. -/
theorem find_vehicle_no_refetch_cex :
    kia_find_vehicle_key kiaEnvBusy "B" kiaWFind =
      (.error (.valueError "vehicle key for id:B not found"), kiaWFind) ∧
    (kia_find_vehicle_key kiaEnvBusy "B" kiaWFind).2.gvlCalls = 0 :=
  ⟨rfl, rfl⟩

/-- C9 amended: vehicle resolution fetches the vehicle list only when no
cache exists (a single fetch), resolves through the cache, and raises
`ValueError` immediately — with no further refetch — when the id is not in
the (possibly just-fetched) list; the Genesis client behaves the same. -/
theorem vehicle_lookup_single_fetch :
    (∀ (env : KiaEnv) (vid : String) (w : KiaWorld) (vs : List KiaVehicle)
       (v : KiaVehicle),
      w.st.vehicles = some vs →
      vs.find? (fun y => y.vehicleIdentifier = vid) = some v →
      kia_find_vehicle_key env vid w = (.ok v.vehicleKey, w)) ∧
    (∀ (env : KiaEnv) (vid : String) (w : KiaWorld) (vs : List KiaVehicle),
      w.st.vehicles = some vs →
      vs.find? (fun y => y.vehicleIdentifier = vid) = none →
      kia_find_vehicle_key env vid w =
        (.error (.valueError ("vehicle key for id:" ++ vid ++ " not found")), w)) ∧
    (∀ (env : KiaEnv) (vid sid : String) (w : KiaWorld)
       (gw : KiaWire (List KiaVehicle)) (v : KiaVehicle),
      w.st.vehicles = none → w.st.session_id = some sid →
      env.gvl w.gvlCalls = .ok gw →
      gw.contentTypeJson = true → gw.statusCode = 0 →
      gw.payload.find? (fun y => y.vehicleIdentifier = vid) = some v →
      kia_find_vehicle_key env vid w =
        (.ok v.vehicleKey, { w with
          gvlCalls := w.gvlCalls + 1,
          st := { w.st with vehicles := some gw.payload } })) ∧
    (∀ (env : KiaEnv) (vid sid : String) (w : KiaWorld)
       (gw : KiaWire (List KiaVehicle)),
      w.st.vehicles = none → w.st.session_id = some sid →
      env.gvl w.gvlCalls = .ok gw →
      gw.contentTypeJson = true → gw.statusCode = 0 →
      gw.payload.find? (fun y => y.vehicleIdentifier = vid) = none →
      kia_find_vehicle_key env vid w =
        (.error (.valueError ("vehicle key for id:" ++ vid ++ " not found")),
          { w with
            gvlCalls := w.gvlCalls + 1,
            st := { w.st with vehicles := some gw.payload } })) ∧
    (∀ (env : GenEnv) (vid : String) (w : GenWorld) (vs : List BlVehicle),
      w.st.vehicles = some vs →
      vs.find? (fun y => y.regid = vid) = none →
      genesis_find_vehicle env vid w =
        (.error (.valueError ("Vehicle " ++ vid ++ " not found")), w)) := by
  refine ⟨?_, ?_, ?_, ?_, ?_⟩
  · intro env vid w vs v hveh hfound
    simp [kia_find_vehicle_key, hveh, hfound]
  · intro env vid w vs hveh hmiss
    simp [kia_find_vehicle_key, hveh, hmiss]
  · intro env vid sid w gw v hnone hsid hgvl hct hsc hfound
    have hauth : (if w.st.session_id = none then kia_login env w
        else (.ok (), w)) = (.ok (), w) := by
      simp [hsid]
    have hinner : kia_get_vehicles_inner env w =
        (.ok (), { w with
          gvlCalls := w.gvlCalls + 1,
          st := { w.st with vehicles := some gw.payload } }) := by
      simp [kia_get_vehicles_inner, kiaAuthedRequest, hauth, gvlFetch,
        kiaEnveloped, hgvl, hct, hsc]
    have hget : kia_get_vehicles env w =
        (.ok (), { w with
          gvlCalls := w.gvlCalls + 1,
          st := { w.st with vehicles := some gw.payload } }) := by
      simp [kia_get_vehicles, request_with_active_session, hinner]
    simp [kia_find_vehicle_key, hnone, hget, hfound]
  · intro env vid sid w gw hnone hsid hgvl hct hsc hmiss
    have hauth : (if w.st.session_id = none then kia_login env w
        else (.ok (), w)) = (.ok (), w) := by
      simp [hsid]
    have hinner : kia_get_vehicles_inner env w =
        (.ok (), { w with
          gvlCalls := w.gvlCalls + 1,
          st := { w.st with vehicles := some gw.payload } }) := by
      simp [kia_get_vehicles_inner, kiaAuthedRequest, hauth, gvlFetch,
        kiaEnveloped, hgvl, hct, hsc]
    have hget : kia_get_vehicles env w =
        (.ok (), { w with
          gvlCalls := w.gvlCalls + 1,
          st := { w.st with vehicles := some gw.payload } }) := by
      simp [kia_get_vehicles, request_with_active_session, hinner]
    simp [kia_find_vehicle_key, hnone, hget, hmiss]
  · intro env vid w vs hveh hmiss
    simp [genesis_find_vehicle, hveh, hmiss]

/-- Witness for `vehicle_lookup_single_fetch`: with no cache, looking up
vehicle "A" fetches the list exactly once and resolves to key "KA". -/
theorem vehicle_lookup_single_fetch_witness :
    kia_find_vehicle_key kiaEnvGvl "A" kiaWNoCache =
      (.ok "KA", { kiaWNoCache with
        gvlCalls := 1,
        st := { kiaWNoCache.st with
          vehicles := some [{ vehicleIdentifier := "A", vehicleKey := "KA" }] } }) := by
  have h := vehicle_lookup_single_fetch.2.2.1 kiaEnvGvl "A" "S" kiaWNoCache
    { payload := [{ vehicleIdentifier := "A", vehicleKey := "KA" }] }
    { vehicleIdentifier := "A", vehicleKey := "KA" }
    rfl rfl rfl rfl rfl (by decide)
  simpa using h

/-- C10 counterexample: calling `start_charge` on a non-EV with no cached
vehicle list succeeds and dispatches no charge command, but the vehicle
cache is populated as a side effect — the client state does not stay
unchanged as claimed. -/
theorem charge_noop_state_cex :
    (hyundai_start_charge hyEnvEnroll "V1" hyWStale).1 = .ok () ∧
    (hyundai_start_charge hyEnvEnroll "V1" hyWStale).2.cmdUrls = [] ∧
    (hyundai_start_charge hyEnvEnroll "V1" hyWStale).2.st.vehicles ≠
      hyWStale.st.vehicles :=
  ⟨rfl, rfl, by decide⟩

/-- C10 amended: when the client already holds a token (Hyundai) or a
token valid by the buffer rule (Genesis) and the vehicle list is cached
with the vehicle's `evStatus ≠ "E"`, each of `start_charge`, `stop_charge`
and `set_charge_limits` returns without dispatching any command and
without an error, leaving the client state unchanged; without a cached
list or token the call may first log in or populate the cache before
returning without dispatching a charge command. -/
theorem charge_ops_noop_on_non_ev :
    (∀ (env : HyEnv) (vid : String) (w : HyWorld) (t : String)
       (vs : List BlVehicle) (v : BlVehicle) (ac dc : Int),
      w.st.access_token = some t →
      w.st.vehicles = some vs →
      vs.find? (fun y => y.regid = vid) = some v →
      v.evStatus ≠ "E" →
      hyundai_start_charge env vid w = (.ok (), w) ∧
      hyundai_stop_charge env vid w = (.ok (), w) ∧
      hyundai_set_charge_limits env vid ac dc w = (.ok (), w)) ∧
    (∀ (env : GenEnv) (vid : String) (w : GenWorld)
       (vs : List BlVehicle) (v : BlVehicle) (ac dc : Int),
      genesis_is_token_valid (env.now w.clockReads) w.st = true →
      w.st.vehicles = some vs →
      vs.find? (fun y => y.regid = vid) = some v →
      v.evStatus ≠ "E" →
      genesis_start_charge env vid w =
        (.ok (), { w with clockReads := w.clockReads + 1 }) ∧
      genesis_stop_charge env vid w =
        (.ok (), { w with clockReads := w.clockReads + 1 }) ∧
      genesis_set_charge_limits env vid ac dc w =
        (.ok (), { w with clockReads := w.clockReads + 1 })) := by
  constructor
  · intro env vid w t vs v ac dc htok hveh hfound hev
    have hfind : hyundai_find_vehicle env vid w = (.ok v, w) := by
      simp [hyundai_find_vehicle, hveh, hfound]
    refine ⟨?_, ?_, ?_⟩
    · simp [hyundai_start_charge, htok, hfind, hev]
    · simp [hyundai_stop_charge, htok, hfind, hev]
    · simp [hyundai_set_charge_limits, htok, hfind, hev]
  · intro env vid w vs v ac dc hval hveh hfound hev
    have hens : genesis_ensure_token_valid env w =
        (.ok (), { w with clockReads := w.clockReads + 1 }) := by
      simp [genesis_ensure_token_valid, hval]
    have hfind : genesis_find_vehicle env vid
        { w with clockReads := w.clockReads + 1 } =
        (.ok v, { w with clockReads := w.clockReads + 1 }) := by
      simp [genesis_find_vehicle, hveh, hfound]
    refine ⟨?_, ?_, ?_⟩
    · simp [genesis_start_charge, hens, hfind, hev]
    · simp [genesis_stop_charge, hens, hfind, hev]
    · simp [genesis_set_charge_limits, hens, hfind, hev]

/-- Witness for `charge_ops_noop_on_non_ev`: a Hyundai and a Genesis
client with cached non-EV vehicle "V1" — all charge operations are silent
no-ops leaving state untouched. -/
theorem charge_ops_noop_on_non_ev_witness :
    hyundai_start_charge hyEnvOk "V1" hyWCharge = (.ok (), hyWCharge) ∧
    genesis_stop_charge genEnvFresh "V1" genWCharge =
      (.ok (), { genWCharge with clockReads := 1 }) :=
  ⟨(charge_ops_noop_on_non_ev.1 hyEnvOk "V1" hyWCharge "tok"
      [{ regid := "V1", evStatus := "N" }] { regid := "V1", evStatus := "N" }
      80 90 rfl rfl (by decide) (by decide)).1,
   (charge_ops_noop_on_non_ev.2 genEnvFresh "V1" genWCharge
      [{ regid := "V1", evStatus := "N" }] { regid := "V1", evStatus := "N" }
      80 90 (by decide) rfl (by decide) (by decide)).2.1⟩

end KiaHyundaiSpec
